import Mathlib

/-!
Verification development for the trav scheduling/route service.

Shallow embedding of the core of `src/unnamed/part_000` (and the shared logic of
`src/server.js`):

* `calculateDistance` (part_000:523-532) — haversine distance, embedded over `ℝ`
  (JS floating point idealised as real arithmetic; `Math.atan2` is embedded as
  the piecewise `atan2` below).
* `roundToQuarterHour` (part_000:230-244) — times are modelled as whole minutes
  (`ℕ`); inside the scheduling pipeline every timestamp has zero seconds, so the
  minutes-only model is exact.
* `scheduleOptimizedJobs` (part_000:273-360) — the time layout engine.  The call
  `new Date()` is modelled by an explicit `todayMin` parameter, and the random
  buffer `Math.floor(Math.random() * 16) + 15` by an explicit `buffers : ℕ → ℕ`
  stream (one value per gap), quantified over in the theorems.
* `distributeJobsAcrossDays` (part_000:535-641) — the day distribution planner.
* the validation prefixes of `POST /optimize-route` (part_000:363-398,
  server.js:230-258) and `POST /optimize-multi-day-route` (part_000:644-677).

Jobs carry coordinates as `Option ℚ` (a JS number is a binary float, hence a
rational; `none` models an absent/null coordinate).  The planner's distance
comparisons live in `ℝ`, so the planner definitions are `noncomputable`; all
validation and the time layout engine are executable.
-/

namespace TravApi

open Real

/-- Piecewise embedding of JavaScript `Math.atan2 (y, x)`. -/
noncomputable def atan2 (y x : ℝ) : ℝ :=
  if 0 < x then Real.arctan (y / x)
  else if x < 0 then
    (if 0 ≤ y then Real.arctan (y / x) + Real.pi else Real.arctan (y / x) - Real.pi)
  else if 0 < y then Real.pi / 2
  else if y < 0 then -(Real.pi / 2)
  else 0

/-- Haversine distance (part_000:523-532): Earth radius 6371 km, inputs in
degrees.  Embedded over `ℝ`. -/
noncomputable def calculateDistance (lat1 lng1 lat2 lng2 : ℝ) : ℝ :=
  let R : ℝ := 6371
  let dLat : ℝ := (lat2 - lat1) * Real.pi / 180
  let dLng : ℝ := (lng2 - lng1) * Real.pi / 180
  let a : ℝ := Real.sin (dLat / 2) * Real.sin (dLat / 2) +
    Real.cos (lat1 * Real.pi / 180) * Real.cos (lat2 * Real.pi / 180) *
    Real.sin (dLng / 2) * Real.sin (dLng / 2)
  let c : ℝ := 2 * atan2 (Real.sqrt a) (Real.sqrt (1 - a))
  R * c

/-! ## Data model

`Job` mirrors the request schema: coordinates are `Option ℚ` (`none` = absent),
durations are `{days, hours, minutes}` naturals, timestamps are minutes (`ℕ`)
in local wall-clock semantics.  The fields `lat`, `lng`, `totalDuration` are
`none` on input and only populated by the planner's `jobsWithDistance`
augmentation (part_000:541-546), so that writes to them are observable. -/

structure Duration where
  days : ℕ
  hours : ℕ
  minutes : ℕ
deriving DecidableEq

structure Location where
  latitude : Option ℚ
  longitude : Option ℚ
  formattedAddress : String
deriving DecidableEq

structure Job where
  id : ℕ
  title : String
  type : String
  location : Location
  duration : Duration
  startDate : Option ℕ := none
  endDate : Option ℕ := none
  travelTimeToNext : Option String := none
  routeOrder : Option ℕ := none
  lat : Option ℚ := none
  lng : Option ℚ := none
  totalDuration : Option ℕ := none
deriving DecidableEq

/-- One distance-matrix cell's `duration` payload (`{value, text}`, value in
seconds). -/
structure DurationInfo where
  value : ℕ
  text : String
deriving DecidableEq

/-- A distance-matrix element; the `duration` field may be absent (falsy in JS),
in which case the engine falls back to the 15-minute default. -/
structure MatrixElement where
  duration : Option DurationInfo
deriving DecidableEq

structure MatrixRow where
  elements : List MatrixElement
deriving DecidableEq

structure DistanceMatrix where
  rows : List MatrixRow
deriving DecidableEq

/-- A destination record extracted from a job (part_000:387-398). -/
structure Destination where
  lat : ℚ
  lng : ℚ
  jobId : ℕ
  title : String
  address : String
deriving DecidableEq

/-! ## Time layout engine (`scheduleOptimizedJobs`, part_000:273-360) -/

/-- part_000:230-244; `t` is minutes.  All cursor values inside the pipeline
have zero seconds, so the JS rounding of `getMinutes()` is exactly this. -/
def roundToQuarterHour (t : ℕ) : ℕ :=
  let minutes := t % 60
  let roundedMinutes := ((minutes + 14) / 15) * 15
  if roundedMinutes = 60 then t - minutes + 60 else t - minutes + roundedMinutes

/-- A job's declared duration in minutes:
`(job.duration.hours || 0) * 60 + (job.duration.minutes || 0)` (part_000:300).
Note `duration.days` is ignored by the engine, exactly as in the source. -/
def durMin (j : Job) : ℕ := j.duration.hours * 60 + j.duration.minutes

/-- part_000:301-304: a zero-minute duration is rewritten to `{0, 1, 0}`
in place on the job object. -/
def fixDuration (j : Job) : Job :=
  if durMin j = 0 then { j with duration := ⟨0, 1, 0⟩ } else j

/-- The effective duration the engine schedules with. -/
def durEff (j : Job) : ℕ := if durMin j = 0 then 60 else durMin j

/-- part_000:328-346: travel estimate to the next job, and the matrix text to
record on `travelTimeToNext`.  Looks up `rows[currentIndex + 1]?.elements
[nextIndex]`; any miss (job id not among destinations, row/element out of
range, absent `duration`) degrades to the 15-minute default with no text. -/
def travelEstimate (m : DistanceMatrix) (dests : List Destination)
    (curId nextId : ℕ) : ℕ × Option String :=
  match dests.findIdx? (fun d => d.jobId == curId),
        dests.findIdx? (fun d => d.jobId == nextId) with
  | some ci, some ni =>
    match (m.rows.get? (ci + 1)).bind (fun r => r.elements.get? ni) with
    | some el =>
      match el.duration with
      | some info => ((info.value + 59) / 60, some info.text)
      | none => (15, none)
    | none => (15, none)
  | _, _ => (15, none)

/-- The per-job loop of `scheduleOptimizedJobs` (part_000:296-357).  `i` is the
gap index feeding the buffer stream, `t` the running cursor in minutes. -/
def scheduleLoop (m : DistanceMatrix) (dests : List Destination)
    (buffers : ℕ → ℕ) : ℕ → ℕ → List Job → List Job
  | _, t, [job] =>
    let job1 := fixDuration job
    let s := roundToQuarterHour t
    [{ job1 with startDate := some s, endDate := some (s + durMin job1) }]
  | i, t, job :: next :: rest =>
    let job1 := fixDuration job
    let s := roundToQuarterHour t
    let e := s + durMin job1
    let tr := travelEstimate m dests job1.id next.id
    let job2 : Job := { job1 with
      startDate := some s
      endDate := some e
      travelTimeToNext := (match tr.2 with
        | some txt => some txt
        | none => job1.travelTimeToNext) }
    job2 :: scheduleLoop m dests buffers (i + 1) (e + (tr.1 + buffers i)) (next :: rest)
  | _, _, [] => []

/-- Top of `scheduleOptimizedJobs` (part_000:273-294): pick the base date from
`routingDate` if provided, else from the first job's `startDate` date part,
else from `new Date()` — modelled by the explicit `todayMin` parameter.  Dates
are whole-day indices; `1440 * d` is that day's midnight in minutes, and the
cursor starts at `07:30` (minute 450) of the base date. -/
def scheduleOptimizedJobs (todayMin : ℕ) (buffers : ℕ → ℕ)
    (optimizedJobs : List Job) (distanceMatrix : DistanceMatrix)
    (destinations : List Destination) (routingDate : Option ℕ) : List Job :=
  let baseDate : ℕ :=
    match routingDate with
    | some d => 1440 * d
    | none =>
      match optimizedJobs with
      | [] => 1440 * (todayMin / 1440)
      | j :: _ =>
        match j.startDate with
        | some t => 1440 * (t / 1440)
        | none => 1440 * (todayMin / 1440)
  scheduleLoop distanceMatrix destinations buffers 0 (baseDate + 450) optimizedJobs

/-! ## Day distribution planner (`distributeJobsAcrossDays`, part_000:535-641) -/

/-- part_000:551-553: `{'Job on site': 3, 'Quote inspection': 2, 'Task': 1}
[type] || 1`. -/
def typePriority (t : String) : ℕ :=
  if t = "Job on site" then 3
  else if t = "Quote inspection" then 2
  else if t = "Task" then 1
  else 1

/-- part_000:541-546: the `jobsWithDistance` mapping, which spreads the job and
adds `lat`, `lng` and `totalDuration` fields. -/
def augment (job : Job) : Job :=
  { job with
    lat := job.location.latitude
    lng := job.location.longitude
    totalDuration := some (job.duration.hours * 60 + job.duration.minutes) }

/-- The sort comparator of part_000:549-559 as a `≤`-style Boolean relation:
`a` may precede `b` iff type priority is higher, or equal priority with
duration not smaller.  (The planner sorts the augmented jobs, whose
`totalDuration` is always populated; `getD 0` is only a formal default.) -/
def jobLE (a b : Job) : Bool :=
  typePriority b.type < typePriority a.type ||
    (typePriority a.type == typePriority b.type &&
      b.totalDuration.getD 0 ≤ a.totalDuration.getD 0)

def sortJobs (jobs : List Job) : List Job := jobs.mergeSort jobLE

/-- `calculateDistance (job.lat, job.lng, dayJob.lat, dayJob.lng)` on augmented
jobs (part_000:583, 623).  Augmented jobs always carry `some` coordinates when
the inputs do; `getD 0` stands in for the JS `undefined → NaN` case, which the
claims exclude by requiring resolved coordinates. -/
noncomputable def jobDist (a b : Job) : ℝ :=
  calculateDistance ((a.lat.getD 0 : ℚ) : ℝ) ((a.lng.getD 0 : ℚ) : ℝ)
    ((b.lat.getD 0 : ℚ) : ℝ) ((b.lng.getD 0 : ℚ) : ℝ)

/-- part_000:582-584: mean distance from `job` to the jobs already in the
current day. -/
noncomputable def avgDistTo (job : Job) (day : List Job) : ℝ :=
  ((day.map (fun dayJob => jobDist job dayJob)).sum) / (day.length : ℝ)

/-- part_000:568: `job.totalDuration || 60` (zero is falsy). -/
def effDur (j : Job) : ℕ :=
  if j.totalDuration.getD 0 = 0 then 60 else j.totalDuration.getD 0

/-- Total effective duration of a bucket. -/
def durSum (b : List Job) : ℕ := (b.map effDur).sum

/-- The `maxDayDuration = 8 * 60` constant of part_000:564. -/
def maxDayDuration : ℕ := 8 * 60

open scoped Classical in
/-- The greedy packing walk of part_000:567-600.  State: closed `days`, the
`currentDay` and its running duration.  A job joins the current day iff the
day has count and duration capacity and (the day is empty or the mean distance
is at most 15 km); otherwise the current day is closed (if non-empty) and a
new day starts with the job. -/
noncomputable def packLoop (maxJobsPerDay : ℕ) :
    List Job → List (List Job) → List Job → ℕ → List (List Job) × List Job
  | [], days, currentDay, _ => (days, currentDay)
  | job :: rest, days, currentDay, currentDayDuration =>
    let jobDuration := effDur job
    if currentDay.length < maxJobsPerDay ∧
        currentDayDuration + jobDuration ≤ maxDayDuration ∧
        (currentDay.length = 0 ∨ avgDistTo job currentDay ≤ 15) then
      packLoop maxJobsPerDay rest days (currentDay ++ [job])
        (currentDayDuration + jobDuration)
    else
      packLoop maxJobsPerDay rest
        (if currentDay.length = 0 then days else days ++ [currentDay])
        [job] jobDuration

/-- part_000:602-605: append the final current day if non-empty. -/
def flushPack (p : List (List Job) × List Job) : List (List Job) :=
  if p.2.length = 0 then p.1 else p.1 ++ [p.2]

/-- Sorting plus the greedy walk plus the final flush (part_000:540-605): the
state of `days` just before the rebalancing pass. -/
noncomputable def packedDays (jobs : List Job) (maxJobsPerDay : ℕ) :
    List (List Job) :=
  flushPack (packLoop maxJobsPerDay (sortJobs (jobs.map augment)) [] [] 0)

open scoped Classical in
/-- part_000:620-630: fold over the day's jobs keeping the job with the largest
mean distance to the others (strictly improving, starting from
`(null, 0)`). -/
noncomputable def outlierStep (day : List Job) (acc : Option Job × ℝ)
    (job : Job) : Option Job × ℝ :=
  let avgDistance : ℝ :=
    ((day.filter (fun j => j.id != job.id)).map (fun j => jobDist job j)).sum /
      ((day.length : ℝ) - 1)
  if avgDistance > acc.2 then (some job, avgDistance) else acc

noncomputable def findOutlier (day : List Job) : Option Job × ℝ :=
  day.foldl (outlierStep day) (none, 0)

open scoped Classical in
/-- The rebalancing pass of part_000:607-638, written as recursion over the
list of days: iteration `i` inspects the pair `(days[i], days[i+1])`, and a
moved job is `unshift`ed onto the front of the next day before that day is
inspected in turn. -/
noncomputable def rebalance (maxJobsPerDay : ℕ) : List (List Job) → List (List Job)
  | [] => []
  | [d] => [d]
  | d1 :: d2 :: rest =>
    if (d1.length : ℚ) > (maxJobsPerDay : ℚ) * 0.8 ∧
        (d2.length : ℚ) < (maxJobsPerDay : ℚ) * 0.6 then
      match findOutlier d1 with
      | (some jobToMove, maxDistance) =>
        if maxDistance > 10 then
          (d1.filter (fun j => j.id != jobToMove.id)) ::
            rebalance maxJobsPerDay ((jobToMove :: d2) :: rest)
        else
          d1 :: rebalance maxJobsPerDay (d2 :: rest)
      | (none, _) => d1 :: rebalance maxJobsPerDay (d2 :: rest)
    else
      d1 :: rebalance maxJobsPerDay (d2 :: rest)
  termination_by l => l.length
  decreasing_by all_goals simp

/-- part_000:535-641.  `maxJobsPerDay` is 7 at the call site (part_000:677). -/
noncomputable def distributeJobsAcrossDays (jobs : List Job)
    (maxJobsPerDay : ℕ) : List (List Job) :=
  if jobs.length ≤ maxJobsPerDay then [jobs]
  else rebalance maxJobsPerDay (packedDays jobs maxJobsPerDay)

/-! ## Endpoint validation (part_000:363-398, 644-705; server.js:230-258) -/

/-- The regex `^\d{4}-\d{2}-\d{2}$`. -/
def isDateFormat (s : String) : Bool :=
  match s.toList with
  | [a, b, c, d, h1, e, f, h2, g, h] =>
    a.isDigit && b.isDigit && c.isDigit && d.isDigit && h1 == '-' &&
      e.isDigit && f.isDigit && h2 == '-' && g.isDigit && h.isDigit
  | _ => false

/-- The per-job destination extraction of part_000:387-398 (identical at
part_000:694-705 and server.js:247-258).  The JS guard is
`!job.location || !job.location.latitude || !job.location.longitude`, a
truthiness test: an absent coordinate and a coordinate equal to `0` both fail
it. -/
def destinationOf (job : Job) : Except String Destination :=
  match job.location.latitude, job.location.longitude with
  | some lat, some lng =>
    if lat = 0 ∨ lng = 0 then
      Except.error ("Job \"" ++ job.title ++ "\" is missing location coordinates")
    else
      Except.ok ⟨lat, lng, job.id, job.title, job.location.formattedAddress⟩
  | _, _ =>
    Except.error ("Job \"" ++ job.title ++ "\" is missing location coordinates")

/-- `jobs.map(...)` with a `throw` inside: the first failing job aborts. -/
def extractDestinations (jobs : List Job) : Except String (List Destination) :=
  jobs.mapM destinationOf

/-- Outcome of a request handler, up to the first external call: a 400
validation response, a 500 response (thrown errors are caught and returned
with the thrown message as `details`), or "proceeds" carrying the state that
later stages would consume. -/
inductive Outcome (α : Type) where
  | badRequest (error : String)
  | serverError (details : String)
  | proceeds (a : α)
deriving DecidableEq

/-- Validation prefix of `POST /optimize-route` (part_000:363-398): missing or
empty jobs, malformed optional `routingDate`, missing API key, then the
destination extraction whose throw is caught as a 500. -/
def optimizeRouteHandler (hasApiKey : Bool) (jobs : Option (List Job))
    (routingDate : Option String) : Outcome (List Destination) :=
  match jobs with
  | none => Outcome.badRequest "Jobs array is required and must contain at least one job"
  | some js =>
    if js.length = 0 then
      Outcome.badRequest "Jobs array is required and must contain at least one job"
    else if (match routingDate with
      | some d => !(isDateFormat d)
      | none => false) then
      Outcome.badRequest "routingDate must be in YYYY-MM-DD format"
    else if !hasApiKey then
      Outcome.serverError "Google Maps API key is not configured"
    else
      match extractDestinations js with
      | Except.error msg => Outcome.serverError msg
      | Except.ok dests => Outcome.proceeds dests

/-- Validation prefix of `POST /optimize-multi-day-route` (part_000:644-677):
missing or empty jobs, the hard 20-job cap, required `startFromDate`, missing
API key, then the planner is invoked.  Everything after (per-day extraction,
external matrix and ordering calls, the engine) would live inside
`Outcome.proceeds`. -/
noncomputable def optimizeMultiDayHandler (hasApiKey : Bool)
    (jobs : Option (List Job)) (startFromDate : Option String) :
    Outcome (List (List Job)) :=
  match jobs with
  | none => Outcome.badRequest "Jobs array is required and must contain at least one job"
  | some js =>
    if js.length = 0 then
      Outcome.badRequest "Jobs array is required and must contain at least one job"
    else if js.length > 20 then
      Outcome.badRequest "Maximum 20 jobs supported for multi-day optimization"
    else if (match startFromDate with
      | some d => !(isDateFormat d)
      | none => true) then
      Outcome.badRequest "startFromDate is required and must be in YYYY-MM-DD format"
    else if !hasApiKey then
      Outcome.serverError "Google Maps API key is not configured"
    else
      Outcome.proceeds (distributeJobsAcrossDays js 7)

/-- The per-day destination extraction step of the multi-day loop
(part_000:694-705), identical to the single-day one. -/
def multiDayDestinationsFor (dayJobs : List Job) : Except String (List Destination) :=
  dayJobs.mapM destinationOf

/-! ## Concrete fixtures used by witnesses and counterexamples -/

/-- A job with resolved coordinates `(la, ln)` and duration `h` hours `m`
minutes. -/
def mkJob (i : ℕ) (ty : String) (la ln : ℚ) (h m : ℕ) : Job :=
  { id := i
    title := "J" ++ toString i
    type := ty
    location := { latitude := some la, longitude := some ln, formattedAddress := "" }
    duration := ⟨0, h, m⟩ }

/-- A 61-minute job: its end time `08:31` is one minute past a quarter hour, so
the next start gets the full 14-minute rounding penalty. -/
def jobSixtyOne : Job := mkJob 1 "Task" 1 1 1 1

def jobSecond : Job := mkJob 2 "Task" 1 1 1 0

/-- A job with declared duration `0h 0m`. -/
def jobZeroDur : Job := mkJob 3 "Task" 1 1 0 0

/-- A job whose `startDate` is absent (as on a fresh request). -/
def jobNoStart : Job := mkJob 4 "Task" 1 1 1 0

/-- A job sitting exactly on the equator (`latitude = 0`). -/
def jobEquator : Job := mkJob 5 "Task" 0 5 1 0

/-- The empty distance matrix: every lookup takes the 15-minute default. -/
def emptyMatrix : DistanceMatrix := ⟨[]⟩

/-- Twenty-one distinct jobs, for the multi-day cap. -/
def twentyOneJobs : List Job := (List.range 21).map (fun n => mkJob n "Task" 1 1 1 0)

/-- Cluster jobs for the planner counterexample: five 60-minute jobs at the
origin, a sixth 60-minute job 0.12 degrees of latitude away (about 13.3 km,
inside the 15 km joining radius but outside the 10 km outlier radius), and two
480-minute jobs far away.  All eight are `Job on site` / `Task` so the input
is already in sorted order. -/
def siteA1 : Job := mkJob 1 "Job on site" 0 0 1 0

def siteA2 : Job := mkJob 2 "Job on site" 0 0 1 0

def siteA3 : Job := mkJob 3 "Job on site" 0 0 1 0

def siteA4 : Job := mkJob 4 "Job on site" 0 0 1 0

def siteA5 : Job := mkJob 5 "Job on site" 0 0 1 0

def siteA6 : Job := mkJob 6 "Job on site" (3/25) 0 1 0

def taskB7 : Job := mkJob 7 "Task" 10 0 8 0

def taskB8 : Job := mkJob 8 "Task" 10 0 8 0

def eightJobs : List Job :=
  [siteA1, siteA2, siteA3, siteA4, siteA5, siteA6, taskB7, taskB8]

/-! ## Helper lemmas -/

lemma arctan_nonneg {x : ℝ} (h : 0 ≤ x) : 0 ≤ Real.arctan x := by
  have := Real.arctan_strictMono.monotone h
  rwa [Real.arctan_zero] at this

lemma atan2_nonneg {y x : ℝ} (hy : 0 ≤ y) (hx : 0 ≤ x) : 0 ≤ atan2 y x := by
  unfold atan2
  rcases lt_or_eq_of_le hx with hxpos | hxzero
  · rw [if_pos hxpos]
    exact arctan_nonneg (div_nonneg hy (le_of_lt hxpos))
  · rw [if_neg (by rw [← hxzero]; exact lt_irrefl 0),
      if_neg (by rw [← hxzero]; exact lt_irrefl 0)]
    rcases lt_or_eq_of_le hy with hypos | hyzero
    · rw [if_pos hypos]
      positivity
    · rw [if_neg (by rw [← hyzero]; exact lt_irrefl 0),
        if_neg (by rw [← hyzero]; exact lt_irrefl 0)]

lemma sqrt_atan2_nonneg (x y : ℝ) :
    0 ≤ 6371 * (2 * atan2 (Real.sqrt x) (Real.sqrt y)) := by
  have h := atan2_nonneg (Real.sqrt_nonneg x) (Real.sqrt_nonneg y)
  linarith

lemma calculateDistance_nonneg (lat1 lng1 lat2 lng2 : ℝ) :
    0 ≤ calculateDistance lat1 lng1 lat2 lng2 := by
  simp only [calculateDistance]
  apply sqrt_atan2_nonneg

lemma calculateDistance_self (lat lng : ℝ) : calculateDistance lat lng lat lng = 0 := by
  simp [calculateDistance, atan2]

lemma calculateDistance_symm (lat1 lng1 lat2 lng2 : ℝ) :
    calculateDistance lat1 lng1 lat2 lng2 = calculateDistance lat2 lng2 lat1 lng1 := by
  simp only [calculateDistance]
  have e1 : Real.sin ((lat1 - lat2) * Real.pi / 180 / 2) =
      -Real.sin ((lat2 - lat1) * Real.pi / 180 / 2) := by
    rw [(by ring : (lat1 - lat2) * Real.pi / 180 / 2 =
      -((lat2 - lat1) * Real.pi / 180 / 2)), Real.sin_neg]
  have e2 : Real.sin ((lng1 - lng2) * Real.pi / 180 / 2) =
      -Real.sin ((lng2 - lng1) * Real.pi / 180 / 2) := by
    rw [(by ring : (lng1 - lng2) * Real.pi / 180 / 2 =
      -((lng2 - lng1) * Real.pi / 180 / 2)), Real.sin_neg]
  rw [e1, e2]
  ring_nf

/-- For two points on the same meridian at most 20 degrees of latitude apart, the
haversine distance is exactly `6371 * π / 180` km per degree of latitude. -/
lemma calculateDistance_same_lng {a b : ℝ} (L : ℝ) (hab : |b - a| ≤ 20) :
    calculateDistance a L b L = 6371 * (Real.pi / 180) * |b - a| := by
  simp only [calculateDistance]
  have hL : (L - L) * Real.pi / 180 / 2 = 0 := by ring
  rw [hL]
  simp only [Real.sin_zero, mul_zero, zero_mul, add_zero]
  set d : ℝ := (b - a) * Real.pi / 180 / 2 with hd
  have hd' : d = (b - a) * (Real.pi / 360) := by rw [hd]; ring
  have habsval : |d| = |b - a| * (Real.pi / 360) := by
    rw [hd', abs_mul, abs_of_pos (by positivity : (0:ℝ) < Real.pi / 360)]
  have habs : |d| < Real.pi / 2 := by
    rw [habsval]
    nlinarith [Real.pi_pos, abs_nonneg (b - a)]
  have hcos : 0 < Real.cos d :=
    Real.cos_pos_of_mem_Ioo ⟨neg_lt_of_abs_lt habs, lt_of_abs_lt habs⟩
  have hsq : Real.sin d * Real.sin d = Real.sin d ^ 2 := by ring
  have h1 : (1 : ℝ) - Real.sin d ^ 2 = Real.cos d ^ 2 := by
    have := Real.sin_sq_add_cos_sq d
    linarith
  rw [hsq, h1, Real.sqrt_sq_eq_abs, Real.sqrt_sq_eq_abs]
  rw [abs_of_pos hcos]
  have hsinabs : |Real.sin d| = Real.sin |d| := by
    rcases le_or_lt 0 d with hpos | hneg
    · have hdle : d ≤ Real.pi := by
        have := lt_of_abs_lt habs
        linarith [Real.pi_pos]
      rw [abs_of_nonneg hpos,
        abs_of_nonneg (Real.sin_nonneg_of_nonneg_of_le_pi hpos hdle)]
    · have hmdlt : -d < Real.pi / 2 := by
        rw [← abs_of_neg hneg]
        exact habs
      have hsinmd : 0 < Real.sin (-d) :=
        Real.sin_pos_of_pos_of_lt_pi (neg_pos.mpr hneg) (by linarith [Real.pi_pos])
      have hsd : Real.sin d < 0 := by
        have h := Real.sin_neg (-d)
        rw [neg_neg] at h
        rw [h]
        linarith
      rw [abs_of_neg hsd, abs_of_neg hneg, Real.sin_neg]
  rw [hsinabs]
  have harg : Real.sin |d| / Real.cos d = Real.tan |d| := by
    have hcosabs : Real.cos |d| = Real.cos d := by
      rcases le_or_lt 0 d with hpos | hneg
      · rw [abs_of_nonneg hpos]
      · rw [abs_of_neg hneg, Real.cos_neg]
    rw [Real.tan_eq_sin_div_cos, hcosabs]
  have hat : atan2 (Real.sin |d|) (Real.cos d) = |d| := by
    unfold atan2
    rw [if_pos hcos, harg]
    exact Real.arctan_tan (by nlinarith [abs_nonneg d, Real.pi_pos]) habs
  rw [hat, habsval]
  ring

lemma roundToQuarterHour_eq (t : ℕ) : roundToQuarterHour t = 15 * ((t + 14) / 15) := by
  simp only [roundToQuarterHour]
  split <;> omega

lemma le_roundToQuarterHour (t : ℕ) : t ≤ roundToQuarterHour t := by
  rw [roundToQuarterHour_eq]; omega

lemma roundToQuarterHour_le (t : ℕ) : roundToQuarterHour t ≤ t + 14 := by
  rw [roundToQuarterHour_eq]; omega

lemma roundToQuarterHour_mod (t : ℕ) : roundToQuarterHour t % 15 = 0 := by
  rw [roundToQuarterHour_eq]; omega

lemma durMin_fixDuration (j : Job) : durMin (fixDuration j) = durEff j := by
  unfold fixDuration durEff durMin
  split <;> simp_all

@[simp] lemma fixDuration_id (j : Job) : (fixDuration j).id = j.id := by
  unfold fixDuration; split <;> rfl

@[simp] lemma fixDuration_title (j : Job) : (fixDuration j).title = j.title := by
  unfold fixDuration; split <;> rfl

@[simp] lemma fixDuration_type (j : Job) : (fixDuration j).type = j.type := by
  unfold fixDuration; split <;> rfl

@[simp] lemma fixDuration_location (j : Job) : (fixDuration j).location = j.location := by
  unfold fixDuration; split <;> rfl

@[simp] lemma fixDuration_routeOrder (j : Job) : (fixDuration j).routeOrder = j.routeOrder := by
  unfold fixDuration; split <;> rfl

@[simp] lemma fixDuration_lat (j : Job) : (fixDuration j).lat = j.lat := by
  unfold fixDuration; split <;> rfl

@[simp] lemma fixDuration_lng (j : Job) : (fixDuration j).lng = j.lng := by
  unfold fixDuration; split <;> rfl

@[simp] lemma fixDuration_totalDuration (j : Job) :
    (fixDuration j).totalDuration = j.totalDuration := by
  unfold fixDuration; split <;> rfl

@[simp] lemma fixDuration_travelTimeToNext (j : Job) :
    (fixDuration j).travelTimeToNext = j.travelTimeToNext := by
  unfold fixDuration; split <;> rfl

/-- The first job emitted by the engine loop starts at the cursor rounded up to
a quarter hour, ends after its effective duration, and keeps its id. -/
lemma scheduleLoop_cons_head (m : DistanceMatrix) (dests : List Destination)
    (buffers : ℕ → ℕ) (i0 t : ℕ) (job : Job) (rest : List Job) :
    ∃ jh tl, scheduleLoop m dests buffers i0 t (job :: rest) = jh :: tl ∧
      jh.startDate = some (roundToQuarterHour t) ∧
      jh.endDate = some (roundToQuarterHour t + durEff job) ∧
      jh.id = job.id := by
  cases rest with
  | nil =>
    refine ⟨_, _, rfl, rfl, ?_, ?_⟩
    · simp [scheduleLoop, durMin_fixDuration]
    · simp [scheduleLoop]
  | cons nx rs =>
    refine ⟨_, _, rfl, rfl, ?_, ?_⟩
    · simp [scheduleLoop, durMin_fixDuration]
    · simp [scheduleLoop]

/-- Per-position specification of the engine loop: the `k`-th output job starts
on a quarter hour, ends exactly its effective duration later, and agrees with
the `k`-th input job on every field except `startDate`, `endDate`,
`travelTimeToNext` and (when the declared duration was zero) `duration`. -/
lemma scheduleLoop_spec (m : DistanceMatrix) (dests : List Destination)
    (buffers : ℕ → ℕ) :
    ∀ (l : List Job) (i0 t k : ℕ) (jin jout : Job),
      l.get? k = some jin →
      (scheduleLoop m dests buffers i0 t l).get? k = some jout →
      ∃ s : ℕ, jout.startDate = some s ∧ jout.endDate = some (s + durEff jin) ∧
        s % 15 = 0 ∧ jout.id = jin.id ∧ jout.title = jin.title ∧
        jout.type = jin.type ∧ jout.location = jin.location ∧
        jout.routeOrder = jin.routeOrder ∧ jout.lat = jin.lat ∧
        jout.lng = jin.lng ∧ jout.totalDuration = jin.totalDuration ∧
        jout.duration = (fixDuration jin).duration := by
  intro l
  induction l with
  | nil =>
    intro i0 t k jin jout h1 _
    simp at h1
  | cons job rest ih =>
    intro i0 t k jin jout h1 h2
    cases rest with
    | nil =>
      cases k with
      | zero =>
        simp only [List.get?_cons_zero, Option.some.injEq] at h1
        simp only [scheduleLoop, List.get?_cons_zero, Option.some.injEq] at h2
        subst h1
        subst h2
        refine ⟨roundToQuarterHour t, rfl, ?_, roundToQuarterHour_mod t, ?_, ?_, ?_,
          ?_, ?_, ?_, ?_, ?_, rfl⟩
        · simp [durMin_fixDuration]
        all_goals simp
      | succ k =>
        simp [scheduleLoop] at h2
    | cons next rest2 =>
      cases k with
      | zero =>
        simp only [List.get?_cons_zero, Option.some.injEq] at h1
        simp only [scheduleLoop, List.get?_cons_zero, Option.some.injEq] at h2
        subst h1
        subst h2
        refine ⟨roundToQuarterHour t, rfl, ?_, roundToQuarterHour_mod t, ?_, ?_, ?_,
          ?_, ?_, ?_, ?_, ?_, rfl⟩
        · simp [durMin_fixDuration]
        all_goals simp
      | succ k =>
        simp only [List.get?_cons_succ] at h1
        simp only [scheduleLoop, List.get?_cons_succ] at h2
        exact ih _ _ k jin jout h1 h2

/-- Consecutive-pair specification of the engine loop: between the `k`-th and
`(k+1)`-st output jobs, the start-to-end gap is some rounded-up
travel-plus-buffer interval. -/
lemma scheduleLoop_gap (m : DistanceMatrix) (dests : List Destination)
    (buffers : ℕ → ℕ) (hb : ∀ n, 15 ≤ buffers n ∧ buffers n ≤ 30) :
    ∀ (l : List Job) (i0 t k : ℕ) (cur nxt : Job),
      (scheduleLoop m dests buffers i0 t l).get? k = some cur →
      (scheduleLoop m dests buffers i0 t l).get? (k + 1) = some nxt →
      ∃ e s : ℕ, cur.endDate = some e ∧ nxt.startDate = some s ∧
        e + 15 ≤ s ∧ s ≤ e + (travelEstimate m dests cur.id nxt.id).1 + 44 := by
  intro l
  induction l with
  | nil =>
    intro i0 t k cur nxt h1 _
    simp [scheduleLoop] at h1
  | cons job rest ih =>
    intro i0 t k cur nxt h1 h2
    cases rest with
    | nil =>
      simp [scheduleLoop] at h2
    | cons next rest2 =>
      cases k with
      | zero =>
        simp only [scheduleLoop, List.get?_cons_zero, Option.some.injEq] at h1
        simp only [scheduleLoop, List.get?_cons_succ, List.get?_cons_zero] at h2
        obtain ⟨jh, tl, heq, hhs, _, hhid⟩ := scheduleLoop_cons_head m dests buffers
          (i0 + 1)
          (roundToQuarterHour t + durMin (fixDuration job) +
            ((travelEstimate m dests (fixDuration job).id next.id).1 + buffers i0))
          next rest2
        rw [heq, List.get?_cons_zero, Option.some.injEq] at h2
        have hce : cur.endDate =
            some (roundToQuarterHour t + durMin (fixDuration job)) := by
          rw [← h1]
        have hcid : cur.id = job.id := by
          rw [← h1]
          simp
        have hnid : nxt.id = next.id := by
          rw [← h2]
          exact hhid
        have hns : nxt.startDate =
            some (roundToQuarterHour (roundToQuarterHour t + durMin (fixDuration job) +
              ((travelEstimate m dests (fixDuration job).id next.id).1 +
                buffers i0))) := by
          rw [← h2]
          exact hhs
        refine ⟨_, _, hce, hns, ?_, ?_⟩
        · have hlo := le_roundToQuarterHour
            (roundToQuarterHour t + durMin (fixDuration job) +
              ((travelEstimate m dests (fixDuration job).id next.id).1 + buffers i0))
          have hbuf := (hb i0).1
          omega
        · have hhi := roundToQuarterHour_le
            (roundToQuarterHour t + durMin (fixDuration job) +
              ((travelEstimate m dests (fixDuration job).id next.id).1 + buffers i0))
          have hbuf := (hb i0).2
          rw [hcid, hnid, fixDuration_id] at *
          omega
      | succ k =>
        simp only [scheduleLoop, List.get?_cons_succ] at h1 h2
        exact ih _ _ k cur nxt h1 h2

/-! ## C4 — exact durations and quarter-hour starts -/

/-- C4: for every job the engine schedules, `endDate - startDate` equals the
job's declared duration in minutes exactly (a zero declared duration having
first been replaced by 60 minutes), and the minutes-of-hour of `startDate` is
one of 0, 15, 30, 45. -/
theorem c4_duration_and_quarter_starts (todayMin : ℕ) (buffers : ℕ → ℕ)
    (jobs : List Job) (m : DistanceMatrix) (dests : List Destination)
    (rd : Option ℕ) (k : ℕ) (jin jout : Job)
    (hin : jobs.get? k = some jin)
    (hout : (scheduleOptimizedJobs todayMin buffers jobs m dests rd).get? k =
      some jout) :
    ∃ s : ℕ, jout.startDate = some s ∧
      jout.endDate = some (s + (if durMin jin = 0 then 60 else durMin jin)) ∧
      (s % 60 = 0 ∨ s % 60 = 15 ∨ s % 60 = 30 ∨ s % 60 = 45) := by
  unfold scheduleOptimizedJobs at hout
  obtain ⟨s, hs, he, hmod, _⟩ :=
    scheduleLoop_spec m dests buffers jobs _ _ k jin jout hin hout
  refine ⟨s, hs, ?_, by omega⟩
  rw [he]
  rfl

theorem c4_witness :
    [jobSixtyOne].get? 0 = some jobSixtyOne ∧
    (scheduleOptimizedJobs 0 (fun _ => 15) [jobSixtyOne] emptyMatrix []
      (some 0)).get? 0 =
      some { jobSixtyOne with startDate := some 450, endDate := some 511 } ∧
    (∃ s : ℕ,
      (({ jobSixtyOne with startDate := some 450, endDate := some 511 } :
        Job)).startDate = some s ∧
      (({ jobSixtyOne with startDate := some 450, endDate := some 511 } :
        Job)).endDate =
        some (s + (if durMin jobSixtyOne = 0 then 60 else durMin jobSixtyOne)) ∧
      (s % 60 = 0 ∨ s % 60 = 15 ∨ s % 60 = 30 ∨ s % 60 = 45)) :=
  ⟨rfl, by decide,
    c4_duration_and_quarter_starts 0 (fun _ => 15) [jobSixtyOne] emptyMatrix []
      (some 0) 0 jobSixtyOne _ rfl (by decide)⟩

/-! ## C3 — gaps between consecutive scheduled jobs -/

/-- C3 (corrected): for any two consecutive scheduled jobs and every attainable
buffer value (each `buffers n` in 15..30), the gap
`next.startDate - current.endDate` is at least 15 minutes and at most the
current job's travel estimate plus 44 minutes: the random buffer contributes up
to 30 and the quarter-hour ceiling applied to the next start contributes up to
14 more.  The travel estimate is `ceil(matrix seconds / 60)` when the matrix
entry exists and 15 otherwise (`travelEstimate`).  The originally claimed upper
bound of travel + 30 is refuted by `c3_counterexample`. -/
theorem c3_consecutive_gap_bounds (todayMin : ℕ) (buffers : ℕ → ℕ)
    (hb : ∀ n, 15 ≤ buffers n ∧ buffers n ≤ 30)
    (jobs : List Job) (m : DistanceMatrix) (dests : List Destination)
    (rd : Option ℕ) (k : ℕ) (cur nxt : Job)
    (hcur : (scheduleOptimizedJobs todayMin buffers jobs m dests rd).get? k =
      some cur)
    (hnxt : (scheduleOptimizedJobs todayMin buffers jobs m dests rd).get? (k + 1) =
      some nxt) :
    ∃ e s : ℕ, cur.endDate = some e ∧ nxt.startDate = some s ∧
      e + 15 ≤ s ∧ s ≤ e + (travelEstimate m dests cur.id nxt.id).1 + 44 := by
  unfold scheduleOptimizedJobs at hcur hnxt
  exact scheduleLoop_gap m dests buffers hb jobs _ _ k cur nxt hcur hnxt

theorem c3_witness :
    (∀ n : ℕ, 15 ≤ (fun _ => 20 : ℕ → ℕ) n ∧ (fun _ => 20 : ℕ → ℕ) n ≤ 30) ∧
    (scheduleOptimizedJobs 0 (fun _ => 20) [jobSixtyOne, jobSecond] emptyMatrix []
      (some 0)).get? 0 =
      some { jobSixtyOne with
        startDate := some 450
        endDate := some 511 } ∧
    (scheduleOptimizedJobs 0 (fun _ => 20) [jobSixtyOne, jobSecond] emptyMatrix []
      (some 0)).get? 1 =
      some { jobSecond with startDate := some 555, endDate := some 615 } ∧
    (∃ e s : ℕ,
      ({ jobSixtyOne with startDate := some 450, endDate := some 511 } :
        Job).endDate = some e ∧
      ({ jobSecond with startDate := some 555, endDate := some 615 } :
        Job).startDate = some s ∧
      e + 15 ≤ s ∧
      s ≤ e + (travelEstimate emptyMatrix []
        ({ jobSixtyOne with startDate := some 450, endDate := some 511 } : Job).id
        ({ jobSecond with startDate := some 555, endDate := some 615 } : Job).id).1 +
          44) :=
 by
  have hbuf : ∀ n : ℕ, 15 ≤ (fun _ => 20 : ℕ → ℕ) n ∧ (fun _ => 20 : ℕ → ℕ) n ≤ 30 := by
    intro n
    constructor <;> norm_num
  exact ⟨hbuf, by decide, by decide,
    c3_consecutive_gap_bounds 0 (fun _ => 20) hbuf
      [jobSixtyOne, jobSecond] emptyMatrix [] (some 0) 0 _ _ (by decide) (by decide)⟩

/-! ## Planner helper lemmas -/

@[simp] lemma augment_id (j : Job) : (augment j).id = j.id := rfl

@[simp] lemma augment_title (j : Job) : (augment j).title = j.title := rfl

@[simp] lemma augment_type (j : Job) : (augment j).type = j.type := rfl

@[simp] lemma augment_location (j : Job) : (augment j).location = j.location := rfl

@[simp] lemma augment_duration (j : Job) : (augment j).duration = j.duration := rfl

@[simp] lemma augment_startDate (j : Job) : (augment j).startDate = j.startDate := rfl

@[simp] lemma augment_endDate (j : Job) : (augment j).endDate = j.endDate := rfl

@[simp] lemma augment_travelTimeToNext (j : Job) :
    (augment j).travelTimeToNext = j.travelTimeToNext := rfl

@[simp] lemma augment_routeOrder (j : Job) : (augment j).routeOrder = j.routeOrder := rfl

lemma sortJobs_perm (l : List Job) : (sortJobs l).Perm l :=
  List.mergeSort_perm l jobLE

/-- The greedy walk never loses or duplicates a job: flushing the final state
of `packLoop` yields exactly the flushed initial days plus the processed list,
in order. -/
lemma packLoop_join (maxJ : ℕ) :
    ∀ (l : List Job) (days : List (List Job)) (cur : List Job) (dur : ℕ),
      (flushPack (packLoop maxJ l days cur dur)).join =
        (flushPack (days, cur)).join ++ l := by
  intro l
  induction l with
  | nil =>
    intro days cur dur
    simp [packLoop]
  | cons job rest ih =>
    intro days cur dur
    by_cases hcond : cur.length < maxJ ∧ dur + effDur job ≤ maxDayDuration ∧
        (cur.length = 0 ∨ avgDistTo job cur ≤ 15)
    · rw [packLoop, if_pos hcond, ih]
      simp only [flushPack]
      by_cases hc : cur.length = 0
      · have hc' : cur = [] := List.length_eq_zero.mp hc
        subst hc'
        simp
      · rw [if_neg (by simp), if_neg hc]
        simp
    · rw [packLoop, if_neg hcond, ih]
      simp only [flushPack]
      rw [if_neg (show ¬ (([job] : List Job)).length = 0 by simp)]
      simp

/-- A located outlier is a member of the day it was found in. -/
lemma foldl_outlier_mem (day : List Job) :
    ∀ (l : List Job) (acc : Option Job × ℝ) (j : Job) (x : ℝ),
      l.foldl (outlierStep day) acc = (some j, x) →
      j ∈ l ∨ acc.1 = some j := by
  intro l
  induction l with
  | nil =>
    intro acc j x h
    right
    simp only [List.foldl_nil] at h
    rw [h]
  | cons a l ih =>
    intro acc j x h
    rcases ih (outlierStep day acc a) j x h with hmem | hacc
    · exact Or.inl (List.mem_cons_of_mem a hmem)
    · simp only [outlierStep] at hacc
      split at hacc
      · simp only [Option.some.injEq] at hacc
        exact Or.inl (hacc ▸ List.mem_cons_self a l)
      · exact Or.inr hacc

lemma findOutlier_mem {day : List Job} {j : Job} {x : ℝ}
    (h : findOutlier day = (some j, x)) : j ∈ day := by
  rcases foldl_outlier_mem day day (none, 0) j x h with hmem | habs
  · exact hmem
  · simp at habs

/-- In a list with `Nodup` ids, removing all entries with a given member's id
removes exactly that member. -/
lemma perm_filter_ne_id :
    ∀ (l : List Job) (j : Job), j ∈ l → (l.map Job.id).Nodup →
      l.Perm (j :: l.filter (fun k => k.id != j.id)) := by
  intro l
  induction l with
  | nil =>
    intro j h
    cases h
  | cons a l ih =>
    intro j hmem hnd
    simp only [List.map_cons, List.nodup_cons, List.mem_map] at hnd
    rcases List.mem_cons.mp hmem with rfl | hmem'
    · rw [@List.filter_cons_of_neg Job (fun k => k.id != j.id) j l (by simp)]
      have hfl : l.filter (fun k => k.id != j.id) = l := by
        rw [List.filter_eq_self]
        intro b hb
        simp only [bne_iff_ne, ne_eq]
        intro hba
        exact hnd.1 ⟨b, hb, hba⟩
      rw [hfl]
    · have hperm := ih j hmem' hnd.2
      have haid : (a.id != j.id) = true := by
        simp only [bne_iff_ne, ne_eq]
        intro haj
        exact hnd.1 ⟨j, hmem', haj.symm⟩
      rw [@List.filter_cons_of_pos Job (fun k => k.id != j.id) a l haid]
      exact (hperm.cons a).trans (List.Perm.swap j a _)

/-- Unfolding equations for one step of the rebalancing pass. -/
lemma rebalance_eq_move (maxJ : ℕ) (d1 d2 : List Job) (rest : List (List Job))
    {j : Job} {x : ℝ}
    (hcond : (d1.length : ℚ) > (maxJ : ℚ) * 0.8 ∧ (d2.length : ℚ) < (maxJ : ℚ) * 0.6)
    (hout : findOutlier d1 = (some j, x)) (hx : x > 10) :
    rebalance maxJ (d1 :: d2 :: rest) =
      (d1.filter (fun k => k.id != j.id)) :: rebalance maxJ ((j :: d2) :: rest) := by
  rw [rebalance, if_pos hcond]
  simp only [hout]
  rw [if_pos hx]

lemma rebalance_eq_nomove (maxJ : ℕ) (d1 d2 : List Job) (rest : List (List Job))
    {j : Job} {x : ℝ}
    (hcond : (d1.length : ℚ) > (maxJ : ℚ) * 0.8 ∧ (d2.length : ℚ) < (maxJ : ℚ) * 0.6)
    (hout : findOutlier d1 = (some j, x)) (hx : ¬ x > 10) :
    rebalance maxJ (d1 :: d2 :: rest) = d1 :: rebalance maxJ (d2 :: rest) := by
  rw [rebalance, if_pos hcond]
  simp only [hout]
  rw [if_neg hx]

lemma rebalance_eq_none (maxJ : ℕ) (d1 d2 : List Job) (rest : List (List Job))
    {x : ℝ}
    (hcond : (d1.length : ℚ) > (maxJ : ℚ) * 0.8 ∧ (d2.length : ℚ) < (maxJ : ℚ) * 0.6)
    (hout : findOutlier d1 = (none, x)) :
    rebalance maxJ (d1 :: d2 :: rest) = d1 :: rebalance maxJ (d2 :: rest) := by
  rw [rebalance, if_pos hcond]
  simp only [hout]

lemma rebalance_eq_skip (maxJ : ℕ) (d1 d2 : List Job) (rest : List (List Job))
    (hcond : ¬ ((d1.length : ℚ) > (maxJ : ℚ) * 0.8 ∧
      (d2.length : ℚ) < (maxJ : ℚ) * 0.6)) :
    rebalance maxJ (d1 :: d2 :: rest) = d1 :: rebalance maxJ (d2 :: rest) := by
  rw [rebalance, if_neg hcond]

/-- The rebalancing pass permutes the multiset of jobs (it only moves one job
between adjacent days per step), provided ids are globally distinct. -/
lemma rebalance_join_perm (maxJ : ℕ) :
    ∀ (dss : List (List Job)), ((dss.join.map Job.id).Nodup) →
      (rebalance maxJ dss).join.Perm dss.join := by
  intro dss
  induction dss using rebalance.induct maxJ with
  | case1 =>
    intro _
    simp [rebalance]
  | case2 d =>
    intro _
    simp [rebalance]
  | case3 d1 d2 rest hcond jobToMove maxDistance hout hdist ih =>
    intro hnd
    rw [rebalance_eq_move maxJ d1 d2 rest hcond hout hdist]
    simp only [List.join_cons, List.cons_append] at hnd ⊢
    have hd1nd : (d1.map Job.id).Nodup := by
      rw [List.map_append] at hnd
      exact hnd.of_append_left
    have h1 : d1.Perm (jobToMove :: d1.filter (fun k => k.id != jobToMove.id)) :=
      perm_filter_ne_id d1 jobToMove (findOutlier_mem hout) hd1nd
    have hperm_ids : ((d1 ++ (d2 ++ rest.join)).map Job.id).Perm
        (jobToMove.id :: ((d1.filter (fun k => k.id != jobToMove.id)).map Job.id ++
          (d2 ++ rest.join).map Job.id)) := by
      rw [List.map_append]
      exact ((h1.map Job.id).append_right _).trans (by rw [List.map_cons]; rfl)
    have hnd_big : (jobToMove.id ::
        ((d1.filter (fun k => k.id != jobToMove.id)).map Job.id ++
          (d2 ++ rest.join).map Job.id)).Nodup :=
      hperm_ids.nodup hnd
    have hnd_ih : ((((jobToMove :: d2) :: rest).join).map Job.id).Nodup := by
      simp only [List.join_cons, List.cons_append, List.map_cons]
      refine List.Nodup.sublist ?_ hnd_big
      exact List.Sublist.cons₂ jobToMove.id
        (List.sublist_append_right _ _)
    have ihp : (rebalance maxJ ((jobToMove :: d2) :: rest)).join.Perm
        (jobToMove :: (d2 ++ rest.join)) := by
      have h := ih hnd_ih
      simpa using h
    exact ((List.Perm.append_left _ ihp).trans List.perm_middle).trans
      (h1.append_right (d2 ++ rest.join)).symm
  | case4 d1 d2 rest hcond jobToMove maxDistance hout hdist ih =>
    intro hnd
    rw [rebalance_eq_nomove maxJ d1 d2 rest hcond hout hdist]
    simp only [List.join_cons] at hnd ⊢
    rw [List.map_append] at hnd
    exact (ih (hnd.of_append_right)).append_left d1
  | case5 d1 d2 rest hcond snd hout ih =>
    intro hnd
    rw [rebalance_eq_none maxJ d1 d2 rest hcond hout]
    simp only [List.join_cons] at hnd ⊢
    rw [List.map_append] at hnd
    exact (ih (hnd.of_append_right)).append_left d1
  | case6 d1 d2 rest hcond ih =>
    intro hnd
    rw [rebalance_eq_skip maxJ d1 d2 rest hcond]
    simp only [List.join_cons] at hnd ⊢
    rw [List.map_append] at hnd
    exact (ih (hnd.of_append_right)).append_left d1

/-- The greedy stage emits exactly the sorted augmented input. -/
lemma packedDays_join (jobs : List Job) (maxJ : ℕ) :
    (packedDays jobs maxJ).join = sortJobs (jobs.map augment) := by
  unfold packedDays
  rw [packLoop_join]
  simp [flushPack]

lemma durSum_append (b : List Job) (j : Job) :
    durSum (b ++ [j]) = durSum b + effDur j := by
  simp [durSum]

/-- Greedy-walk invariant: every flushed bucket respects the count cap and
either the duration cap or is a singleton. -/
lemma packLoop_buckets (maxJ : ℕ) (hm : 1 ≤ maxJ) :
    ∀ (l : List Job) (days : List (List Job)) (cur : List Job) (dur : ℕ),
      (∀ b ∈ days, b.length ≤ maxJ ∧ (durSum b ≤ maxDayDuration ∨ ∃ j, b = [j])) →
      cur.length ≤ maxJ → dur = durSum cur →
      (dur ≤ maxDayDuration ∨ ∃ j, cur = [j]) →
      ∀ b ∈ flushPack (packLoop maxJ l days cur dur),
        b.length ≤ maxJ ∧ (durSum b ≤ maxDayDuration ∨ ∃ j, b = [j]) := by
  intro l
  induction l with
  | nil =>
    intro days cur dur hdays hcl hcd hcap b hb
    simp only [packLoop, flushPack] at hb
    by_cases hc : cur.length = 0
    · rw [if_pos hc] at hb
      exact hdays b hb
    · rw [if_neg hc] at hb
      rcases List.mem_append.mp hb with hb' | hb'
      · exact hdays b hb'
      · have : b = cur := by simpa using hb'
        subst this
        exact ⟨hcl, by rw [← hcd]; exact hcap⟩
  | cons job rest ih =>
    intro days cur dur hdays hcl hcd hcap b hb
    by_cases hcond : cur.length < maxJ ∧ dur + effDur job ≤ maxDayDuration ∧
        (cur.length = 0 ∨ avgDistTo job cur ≤ 15)
    · rw [packLoop, if_pos hcond] at hb
      refine ih days (cur ++ [job]) (dur + effDur job) hdays ?_ ?_ ?_ b hb
      · rw [List.length_append]
        simpa using hcond.1
      · rw [durSum_append, hcd]
      · exact Or.inl hcond.2.1
    · rw [packLoop, if_neg hcond] at hb
      refine ih _ [job] (effDur job) ?_ (by simpa using hm) (by simp [durSum])
        (Or.inr ⟨job, rfl⟩) b hb
      intro b' hb'
      by_cases hc : cur.length = 0
      · rw [if_pos hc] at hb'
        exact hdays b' hb'
      · rw [if_neg hc] at hb'
        rcases List.mem_append.mp hb' with hb'' | hb''
        · exact hdays b' hb''
        · have : b' = cur := by simpa using hb''
          subst this
          exact ⟨hcl, by rw [← hcd]; exact hcap⟩

/-- The rebalancing pass preserves the 7-job count cap: a receiving day has at
most 4 jobs (`< 7 * 0.6`), so it ends with at most 5. -/
lemma rebalance_count :
    ∀ (dss : List (List Job)), (∀ b ∈ dss, b.length ≤ 7) →
      ∀ b ∈ rebalance 7 dss, b.length ≤ 7 := by
  intro dss
  induction dss using rebalance.induct 7 with
  | case1 =>
    intro _ b hb
    simp [rebalance] at hb
  | case2 d =>
    intro h b hb
    simp only [rebalance] at hb
    exact h b hb
  | case3 d1 d2 rest hcond jobToMove maxDistance hout hdist ih =>
    intro h b hb
    rw [rebalance_eq_move 7 d1 d2 rest hcond hout hdist] at hb
    rcases List.mem_cons.mp hb with rfl | hb'
    · exact le_trans (List.length_filter_le _ d1) (h d1 (by simp))
    · refine ih ?_ b hb'
      intro b' hb''
      rcases List.mem_cons.mp hb'' with rfl | hb'''
      · have hd2 : d2.length ≤ 4 := by
          by_contra hgt
          push_neg at hgt
          have h5 : (5 : ℚ) ≤ (d2.length : ℚ) := by exact_mod_cast hgt
          have h2 := hcond.2
          norm_num at h2
          linarith
        simp only [List.length_cons]
        omega
      · exact h b' (List.mem_cons_of_mem d1 (List.mem_cons_of_mem d2 hb'''))
  | case4 d1 d2 rest hcond jobToMove maxDistance hout hdist ih =>
    intro h b hb
    rw [rebalance_eq_nomove 7 d1 d2 rest hcond hout hdist] at hb
    rcases List.mem_cons.mp hb with rfl | hb'
    · exact h b (by simp)
    · exact ih (fun b' hb'' => h b' (List.mem_cons_of_mem d1 hb'')) b hb'
  | case5 d1 d2 rest hcond snd hout ih =>
    intro h b hb
    rw [rebalance_eq_none 7 d1 d2 rest hcond hout] at hb
    rcases List.mem_cons.mp hb with rfl | hb'
    · exact h b (by simp)
    · exact ih (fun b' hb'' => h b' (List.mem_cons_of_mem d1 hb'')) b hb'
  | case6 d1 d2 rest hcond ih =>
    intro h b hb
    rw [rebalance_eq_skip 7 d1 d2 rest hcond] at hb
    rcases List.mem_cons.mp hb with rfl | hb'
    · exact h b (by simp)
    · exact ih (fun b' hb'' => h b' (List.mem_cons_of_mem d1 hb'')) b hb'

/-- All buckets produced by the greedy stage satisfy both caps (duration cap up
to singletons). -/
lemma packedDays_buckets (jobs : List Job) :
    ∀ b ∈ packedDays jobs 7,
      b.length ≤ 7 ∧ (durSum b ≤ maxDayDuration ∨ ∃ j, b = [j]) := by
  intro b hb
  exact packLoop_buckets 7 (by norm_num) (sortJobs (jobs.map augment)) [] [] 0
    (by intro b' hb'; cases hb') (by simp) (by simp [durSum]) (Or.inl (by norm_num))
    b hb

/-! ## C1 — no job dropped, none duplicated -/

/-- C1: for pairwise-distinct ids and resolved coordinates, the planner's
output buckets carry exactly the input multiset of job ids — both after the
greedy packing walk (`packedDays`) and after the rebalancing pass (the full
`distributeJobsAcrossDays`). -/
theorem c1_partition (jobs : List Job)
    (hids : (jobs.map Job.id).Nodup)
    (hcoords : ∀ j ∈ jobs, j.location.latitude ≠ none ∧ j.location.longitude ≠ none) :
    ((distributeJobsAcrossDays jobs 7).join.map Job.id).Perm (jobs.map Job.id) ∧
    (((packedDays jobs 7).join).map Job.id).Perm (jobs.map Job.id) := by
  have haug : ((jobs.map augment).map Job.id) = jobs.map Job.id := by
    rw [List.map_map]
    rfl
  have hpacked : (((packedDays jobs 7).join).map Job.id).Perm (jobs.map Job.id) := by
    rw [packedDays_join]
    exact ((sortJobs_perm (jobs.map augment)).map Job.id).trans (by rw [haug])
  refine ⟨?_, hpacked⟩
  unfold distributeJobsAcrossDays
  by_cases hsmall : jobs.length ≤ 7
  · rw [if_pos hsmall]
    simp
  · rw [if_neg hsmall]
    have hnd : (((packedDays jobs 7).join).map Job.id).Nodup :=
      hpacked.symm.nodup hids
    exact ((rebalance_join_perm 7 (packedDays jobs 7) hnd).map Job.id).trans hpacked

theorem c1_witness :
    ((eightJobs.map Job.id).Nodup ∧
      ∀ j ∈ eightJobs, j.location.latitude ≠ none ∧ j.location.longitude ≠ none) ∧
    ((distributeJobsAcrossDays eightJobs 7).join.map Job.id).Perm
      (eightJobs.map Job.id) ∧
    (((packedDays eightJobs 7).join).map Job.id).Perm (eightJobs.map Job.id) :=
  ⟨⟨by decide, by decide⟩,
    (c1_partition eightJobs (by decide) (by decide)).1,
    (c1_partition eightJobs (by decide) (by decide)).2⟩

/-! ## C2 — bucket caps -/

/-- C2 (corrected): with `maxJobsPerDay = 7`, every bucket the planner returns
has at most 7 jobs, and every bucket produced by the greedy packing walk
additionally keeps its total effective duration (hours*60+minutes, zero read
as 60) within 480 minutes unless it is a single job whose own duration exceeds
480.  The original claim that the rebalancing pass also preserves the duration
cap is refuted by `c2_counterexample`: part_000:633-636 moves a job onto the
next day without any duration check. -/
theorem c2_bucket_caps (jobs : List Job) (b : List Job) :
    (b ∈ distributeJobsAcrossDays jobs 7 → b.length ≤ 7) ∧
    (b ∈ packedDays jobs 7 →
      b.length ≤ 7 ∧ (durSum b ≤ 480 ∨ ∃ j, b = [j] ∧ 480 < effDur j)) := by
  have hpacked : ∀ b' ∈ packedDays jobs 7,
      b'.length ≤ 7 ∧ (durSum b' ≤ 480 ∨ ∃ j, b' = [j] ∧ 480 < effDur j) := by
    intro b' hb'
    obtain ⟨hlen, hcap⟩ := packedDays_buckets jobs b' hb'
    refine ⟨hlen, ?_⟩
    rcases hcap with hdur | ⟨j, rfl⟩
    · exact Or.inl hdur
    · rcases le_or_lt (effDur j) 480 with hle | hgt
      · exact Or.inl (by simpa [durSum] using hle)
      · exact Or.inr ⟨j, rfl, hgt⟩
  constructor
  · intro hb
    unfold distributeJobsAcrossDays at hb
    by_cases hsmall : jobs.length ≤ 7
    · rw [if_pos hsmall] at hb
      have : b = jobs := by simpa using hb
      subst this
      exact hsmall
    · rw [if_neg hsmall] at hb
      exact rebalance_count (packedDays jobs 7)
        (fun b' hb' => (hpacked b' hb').1) b hb
  · exact hpacked b

/-! ## Concrete planner evaluation on `eightJobs`

All eight jobs sit on the prime meridian, so every pairwise haversine distance
is exactly `6371 * π / 180` km per degree of latitude
(`calculateDistance_same_lng`); the constant below is the 0.12-degree
separation of `siteA6` from the origin cluster, about 13.34 km. -/

lemma calc_a6_cluster : calculateDistance (3 / 25 : ℝ) 0 0 0 =
    6371 * (Real.pi / 180) * (3 / 25) := by
  have hab : |(0:ℝ) - 3 / 25| ≤ 20 := by
    rw [zero_sub, abs_neg, abs_of_nonneg (by norm_num : (0:ℝ) ≤ 3 / 25)]
    norm_num
  have h := @calculateDistance_same_lng (3 / 25 : ℝ) 0 0 hab
  rw [h, zero_sub, abs_neg, abs_of_nonneg (by norm_num : (0:ℝ) ≤ 3 / 25)]

lemma jobDist_zero (a b : Job) (ha1 : a.lat.getD 0 = 0) (ha2 : a.lng.getD 0 = 0)
    (hb1 : b.lat.getD 0 = 0) (hb2 : b.lng.getD 0 = 0) : jobDist a b = 0 := by
  unfold jobDist
  rw [ha1, ha2, hb1, hb2]
  push_cast
  exact calculateDistance_self 0 0

lemma jobDist_from_A6 (a : Job) (h1 : a.lat.getD 0 = 0) (h2 : a.lng.getD 0 = 0) :
    jobDist (augment siteA6) a = 6371 * (Real.pi / 180) * (3 / 25) := by
  unfold jobDist
  rw [h1, h2, (show (augment siteA6).lat.getD 0 = 3 / 25 from rfl),
    (show (augment siteA6).lng.getD 0 = 0 from rfl)]
  push_cast
  exact calc_a6_cluster

lemma jobDist_to_A6 (a : Job) (h1 : a.lat.getD 0 = 0) (h2 : a.lng.getD 0 = 0) :
    jobDist a (augment siteA6) = 6371 * (Real.pi / 180) * (3 / 25) := by
  unfold jobDist
  rw [h1, h2, (show (augment siteA6).lat.getD 0 = 3 / 25 from rfl),
    (show (augment siteA6).lng.getD 0 = 0 from rfl)]
  push_cast
  rw [calculateDistance_symm]
  exact calc_a6_cluster

lemma distC_le_15 : 6371 * (Real.pi / 180) * (3 / 25) ≤ 15 := by
  have h := Real.pi_lt_315
  nlinarith

lemma distC_gt_10 : (10 : ℝ) < 6371 * (Real.pi / 180) * (3 / 25) := by
  have h := Real.pi_gt_314
  nlinarith

/-- Step equations for the greedy walk. -/
lemma packLoop_cons_join (maxJ : ℕ) (job : Job) (rest : List Job)
    (days : List (List Job)) (cur : List Job) (dur : ℕ)
    (h : cur.length < maxJ ∧ dur + effDur job ≤ maxDayDuration ∧
      (cur.length = 0 ∨ avgDistTo job cur ≤ 15)) :
    packLoop maxJ (job :: rest) days cur dur =
      packLoop maxJ rest days (cur ++ [job]) (dur + effDur job) := by
  rw [packLoop, if_pos h]

lemma packLoop_cons_new (maxJ : ℕ) (job : Job) (rest : List Job)
    (days : List (List Job)) (cur : List Job) (dur : ℕ)
    (h : ¬ (cur.length < maxJ ∧ dur + effDur job ≤ maxDayDuration ∧
      (cur.length = 0 ∨ avgDistTo job cur ≤ 15))) :
    packLoop maxJ (job :: rest) days cur dur =
      packLoop maxJ rest (if cur.length = 0 then days else days ++ [cur])
        [job] (effDur job) := by
  rw [packLoop, if_neg h]

lemma avgDistTo_of_all_zero (j : Job) (day : List Job)
    (h : ∀ d ∈ day, jobDist j d = 0) : avgDistTo j day ≤ 15 := by
  unfold avgDistTo
  have hsum : (day.map (fun dayJob => jobDist j dayJob)).sum = 0 := by
    apply List.sum_eq_zero
    intro x hx
    obtain ⟨d, hd, rfl⟩ := List.mem_map.mp hx
    exact h d hd
  rw [hsum, zero_div]
  norm_num

lemma sort_eight : sortJobs (eightJobs.map augment) = eightJobs.map augment :=
  List.mergeSort_of_sorted (by decide)

lemma avg_a6_step : avgDistTo (augment siteA6)
    [augment siteA1, augment siteA2, augment siteA3, augment siteA4,
      augment siteA5] ≤ 15 := by
  unfold avgDistTo
  simp only [List.map_cons, List.map_nil, List.sum_cons, List.sum_nil,
    List.length_cons, List.length_nil]
  rw [jobDist_from_A6 (augment siteA1) rfl rfl,
    jobDist_from_A6 (augment siteA2) rfl rfl,
    jobDist_from_A6 (augment siteA3) rfl rfl,
    jobDist_from_A6 (augment siteA4) rfl rfl,
    jobDist_from_A6 (augment siteA5) rfl rfl]
  have h := distC_le_15
  have hpos := Real.pi_pos
  rw [div_le_iff (by norm_num : (0:ℝ) < ((0 + 1 + 1 + 1 + 1 + 1 : ℕ) : ℝ))]
  push_cast
  nlinarith

lemma pack_eight : packLoop 7 (eightJobs.map augment) [] [] 0 =
    ([[augment siteA1, augment siteA2, augment siteA3, augment siteA4,
       augment siteA5, augment siteA6], [augment taskB7]], [augment taskB8]) := by
  show packLoop 7 [augment siteA1, augment siteA2, augment siteA3, augment siteA4, augment siteA5, augment siteA6, augment taskB7, augment taskB8] [] [] 0 = _
  rw [packLoop_cons_join 7 (augment siteA1) _ [] [] 0
    ⟨by norm_num, by decide, Or.inl rfl⟩]
  show packLoop 7 [augment siteA2, augment siteA3, augment siteA4, augment siteA5, augment siteA6, augment taskB7, augment taskB8] [] [augment siteA1] 60 = _
  rw [packLoop_cons_join 7 (augment siteA2) _ [] [augment siteA1] 60
    ⟨by norm_num, by decide, Or.inr (avgDistTo_of_all_zero _ _
      (by intro d hd; fin_cases hd <;> exact jobDist_zero _ _ rfl rfl rfl rfl))⟩]
  show packLoop 7 [augment siteA3, augment siteA4, augment siteA5, augment siteA6, augment taskB7, augment taskB8] [] [augment siteA1, augment siteA2] 120 = _
  rw [packLoop_cons_join 7 (augment siteA3) _ [] [augment siteA1, augment siteA2] 120
    ⟨by norm_num, by decide, Or.inr (avgDistTo_of_all_zero _ _
      (by intro d hd; fin_cases hd <;> exact jobDist_zero _ _ rfl rfl rfl rfl))⟩]
  show packLoop 7 [augment siteA4, augment siteA5, augment siteA6, augment taskB7, augment taskB8] [] [augment siteA1, augment siteA2, augment siteA3] 180 = _
  rw [packLoop_cons_join 7 (augment siteA4) _ [] [augment siteA1, augment siteA2, augment siteA3] 180
    ⟨by norm_num, by decide, Or.inr (avgDistTo_of_all_zero _ _
      (by intro d hd; fin_cases hd <;> exact jobDist_zero _ _ rfl rfl rfl rfl))⟩]
  show packLoop 7 [augment siteA5, augment siteA6, augment taskB7, augment taskB8] [] [augment siteA1, augment siteA2, augment siteA3, augment siteA4] 240 = _
  rw [packLoop_cons_join 7 (augment siteA5) _ [] [augment siteA1, augment siteA2, augment siteA3, augment siteA4] 240
    ⟨by norm_num, by decide, Or.inr (avgDistTo_of_all_zero _ _
      (by intro d hd; fin_cases hd <;> exact jobDist_zero _ _ rfl rfl rfl rfl))⟩]
  show packLoop 7 [augment siteA6, augment taskB7, augment taskB8] [] [augment siteA1, augment siteA2, augment siteA3, augment siteA4, augment siteA5] 300 = _
  rw [packLoop_cons_join 7 (augment siteA6) _ [] [augment siteA1, augment siteA2, augment siteA3, augment siteA4, augment siteA5] 300
    ⟨by norm_num, by decide, Or.inr avg_a6_step⟩]
  show packLoop 7 [augment taskB7, augment taskB8] [] [augment siteA1, augment siteA2, augment siteA3, augment siteA4, augment siteA5, augment siteA6] 360 = _
  rw [packLoop_cons_new 7 (augment taskB7) _ [] [augment siteA1, augment siteA2, augment siteA3, augment siteA4, augment siteA5, augment siteA6] 360
    (fun hcap => absurd hcap.2.1 (by decide))]
  show packLoop 7 [augment taskB8] [[augment siteA1, augment siteA2, augment siteA3, augment siteA4, augment siteA5, augment siteA6]] [augment taskB7] 480 = _
  rw [packLoop_cons_new 7 (augment taskB8) _ [[augment siteA1, augment siteA2, augment siteA3, augment siteA4, augment siteA5, augment siteA6]] [augment taskB7] 480
    (fun hcap => absurd hcap.2.1 (by decide))]
  rfl

lemma packed_eight : packedDays eightJobs 7 =
    [[augment siteA1, augment siteA2, augment siteA3, augment siteA4,
      augment siteA5, augment siteA6], [augment taskB7], [augment taskB8]] := by
  unfold packedDays
  rw [sort_eight, pack_eight]
  rfl

/-- One step of the outlier fold, with the mean distance rewritten. -/
lemma outlierStep_eval (day : List Job) (acc : Option Job × ℝ) (job : Job) (v : ℝ)
    (hv : ((day.filter (fun j => j.id != job.id)).map
      (fun j => jobDist job j)).sum / ((day.length : ℝ) - 1) = v) :
    outlierStep day acc job = if v > acc.2 then (some job, v) else acc := by
  simp only [outlierStep]
  rw [hv]

/-- The outlier fold on the packed first day selects `siteA6`, whose mean
distance to the other five (all at the origin) exceeds 10 km. -/
lemma findOutlier_cluster : ∃ x : ℝ,
    findOutlier [augment siteA1, augment siteA2, augment siteA3, augment siteA4, augment siteA5, augment siteA6] = (some (augment siteA6), x) ∧ 10 < x := by
  have havg1 : ((([augment siteA1, augment siteA2, augment siteA3, augment siteA4, augment siteA5, augment siteA6] : List Job).filter
      (fun j => j.id != (augment siteA1).id)).map
      (fun j => jobDist (augment siteA1) j)).sum /
      ((([augment siteA1, augment siteA2, augment siteA3, augment siteA4, augment siteA5, augment siteA6] : List Job).length : ℝ) - 1) = 6371 * (Real.pi / 180) * (3 / 25) / 5 := by
    rw [(show ([augment siteA1, augment siteA2, augment siteA3, augment siteA4, augment siteA5, augment siteA6] : List Job).filter
        (fun j => j.id != (augment siteA1).id) = [augment siteA2, augment siteA3, augment siteA4, augment siteA5, augment siteA6] from rfl)]
    simp only [List.map_cons, List.map_nil, List.sum_cons, List.sum_nil,
      List.length_cons, List.length_nil]
    rw [jobDist_zero (augment siteA1) (augment siteA2) rfl rfl rfl rfl,
      jobDist_zero (augment siteA1) (augment siteA3) rfl rfl rfl rfl,
      jobDist_zero (augment siteA1) (augment siteA4) rfl rfl rfl rfl,
      jobDist_zero (augment siteA1) (augment siteA5) rfl rfl rfl rfl,
      jobDist_to_A6 (augment siteA1) rfl rfl]
    push_cast
    ring
  have havg2 : ((([augment siteA1, augment siteA2, augment siteA3, augment siteA4, augment siteA5, augment siteA6] : List Job).filter
      (fun j => j.id != (augment siteA2).id)).map
      (fun j => jobDist (augment siteA2) j)).sum /
      ((([augment siteA1, augment siteA2, augment siteA3, augment siteA4, augment siteA5, augment siteA6] : List Job).length : ℝ) - 1) = 6371 * (Real.pi / 180) * (3 / 25) / 5 := by
    rw [(show ([augment siteA1, augment siteA2, augment siteA3, augment siteA4, augment siteA5, augment siteA6] : List Job).filter
        (fun j => j.id != (augment siteA2).id) = [augment siteA1, augment siteA3, augment siteA4, augment siteA5, augment siteA6] from rfl)]
    simp only [List.map_cons, List.map_nil, List.sum_cons, List.sum_nil,
      List.length_cons, List.length_nil]
    rw [jobDist_zero (augment siteA2) (augment siteA1) rfl rfl rfl rfl,
      jobDist_zero (augment siteA2) (augment siteA3) rfl rfl rfl rfl,
      jobDist_zero (augment siteA2) (augment siteA4) rfl rfl rfl rfl,
      jobDist_zero (augment siteA2) (augment siteA5) rfl rfl rfl rfl,
      jobDist_to_A6 (augment siteA2) rfl rfl]
    push_cast
    ring
  have havg3 : ((([augment siteA1, augment siteA2, augment siteA3, augment siteA4, augment siteA5, augment siteA6] : List Job).filter
      (fun j => j.id != (augment siteA3).id)).map
      (fun j => jobDist (augment siteA3) j)).sum /
      ((([augment siteA1, augment siteA2, augment siteA3, augment siteA4, augment siteA5, augment siteA6] : List Job).length : ℝ) - 1) = 6371 * (Real.pi / 180) * (3 / 25) / 5 := by
    rw [(show ([augment siteA1, augment siteA2, augment siteA3, augment siteA4, augment siteA5, augment siteA6] : List Job).filter
        (fun j => j.id != (augment siteA3).id) = [augment siteA1, augment siteA2, augment siteA4, augment siteA5, augment siteA6] from rfl)]
    simp only [List.map_cons, List.map_nil, List.sum_cons, List.sum_nil,
      List.length_cons, List.length_nil]
    rw [jobDist_zero (augment siteA3) (augment siteA1) rfl rfl rfl rfl,
      jobDist_zero (augment siteA3) (augment siteA2) rfl rfl rfl rfl,
      jobDist_zero (augment siteA3) (augment siteA4) rfl rfl rfl rfl,
      jobDist_zero (augment siteA3) (augment siteA5) rfl rfl rfl rfl,
      jobDist_to_A6 (augment siteA3) rfl rfl]
    push_cast
    ring
  have havg4 : ((([augment siteA1, augment siteA2, augment siteA3, augment siteA4, augment siteA5, augment siteA6] : List Job).filter
      (fun j => j.id != (augment siteA4).id)).map
      (fun j => jobDist (augment siteA4) j)).sum /
      ((([augment siteA1, augment siteA2, augment siteA3, augment siteA4, augment siteA5, augment siteA6] : List Job).length : ℝ) - 1) = 6371 * (Real.pi / 180) * (3 / 25) / 5 := by
    rw [(show ([augment siteA1, augment siteA2, augment siteA3, augment siteA4, augment siteA5, augment siteA6] : List Job).filter
        (fun j => j.id != (augment siteA4).id) = [augment siteA1, augment siteA2, augment siteA3, augment siteA5, augment siteA6] from rfl)]
    simp only [List.map_cons, List.map_nil, List.sum_cons, List.sum_nil,
      List.length_cons, List.length_nil]
    rw [jobDist_zero (augment siteA4) (augment siteA1) rfl rfl rfl rfl,
      jobDist_zero (augment siteA4) (augment siteA2) rfl rfl rfl rfl,
      jobDist_zero (augment siteA4) (augment siteA3) rfl rfl rfl rfl,
      jobDist_zero (augment siteA4) (augment siteA5) rfl rfl rfl rfl,
      jobDist_to_A6 (augment siteA4) rfl rfl]
    push_cast
    ring
  have havg5 : ((([augment siteA1, augment siteA2, augment siteA3, augment siteA4, augment siteA5, augment siteA6] : List Job).filter
      (fun j => j.id != (augment siteA5).id)).map
      (fun j => jobDist (augment siteA5) j)).sum /
      ((([augment siteA1, augment siteA2, augment siteA3, augment siteA4, augment siteA5, augment siteA6] : List Job).length : ℝ) - 1) = 6371 * (Real.pi / 180) * (3 / 25) / 5 := by
    rw [(show ([augment siteA1, augment siteA2, augment siteA3, augment siteA4, augment siteA5, augment siteA6] : List Job).filter
        (fun j => j.id != (augment siteA5).id) = [augment siteA1, augment siteA2, augment siteA3, augment siteA4, augment siteA6] from rfl)]
    simp only [List.map_cons, List.map_nil, List.sum_cons, List.sum_nil,
      List.length_cons, List.length_nil]
    rw [jobDist_zero (augment siteA5) (augment siteA1) rfl rfl rfl rfl,
      jobDist_zero (augment siteA5) (augment siteA2) rfl rfl rfl rfl,
      jobDist_zero (augment siteA5) (augment siteA3) rfl rfl rfl rfl,
      jobDist_zero (augment siteA5) (augment siteA4) rfl rfl rfl rfl,
      jobDist_to_A6 (augment siteA5) rfl rfl]
    push_cast
    ring
  have havg6 : ((([augment siteA1, augment siteA2, augment siteA3, augment siteA4, augment siteA5, augment siteA6] : List Job).filter
      (fun j => j.id != (augment siteA6).id)).map
      (fun j => jobDist (augment siteA6) j)).sum /
      ((([augment siteA1, augment siteA2, augment siteA3, augment siteA4, augment siteA5, augment siteA6] : List Job).length : ℝ) - 1) = 6371 * (Real.pi / 180) * (3 / 25) := by
    rw [(show ([augment siteA1, augment siteA2, augment siteA3, augment siteA4, augment siteA5, augment siteA6] : List Job).filter
        (fun j => j.id != (augment siteA6).id) = [augment siteA1, augment siteA2, augment siteA3, augment siteA4, augment siteA5] from rfl)]
    simp only [List.map_cons, List.map_nil, List.sum_cons, List.sum_nil,
      List.length_cons, List.length_nil]
    rw [jobDist_from_A6 (augment siteA1) rfl rfl,
      jobDist_from_A6 (augment siteA2) rfl rfl,
      jobDist_from_A6 (augment siteA3) rfl rfl,
      jobDist_from_A6 (augment siteA4) rfl rfl,
      jobDist_from_A6 (augment siteA5) rfl rfl]
    push_cast
    ring
  have s1 : outlierStep [augment siteA1, augment siteA2, augment siteA3, augment siteA4, augment siteA5, augment siteA6] ((none, 0) : Option Job × ℝ) (augment siteA1) =
      (some (augment siteA1), 6371 * (Real.pi / 180) * (3 / 25) / 5) := by
    rw [outlierStep_eval [augment siteA1, augment siteA2, augment siteA3, augment siteA4, augment siteA5, augment siteA6] ((none, 0) : Option Job × ℝ) (augment siteA1) (6371 * (Real.pi / 180) * (3 / 25) / 5) havg1]
    rw [if_pos (by positivity : 6371 * (Real.pi / 180) * (3 / 25) / 5 > ((none, 0) : Option Job × ℝ).2)]
  have s2 : outlierStep [augment siteA1, augment siteA2, augment siteA3, augment siteA4, augment siteA5, augment siteA6] ((some (augment siteA1), 6371 * (Real.pi / 180) * (3 / 25) / 5) : Option Job × ℝ) (augment siteA2) = ((some (augment siteA1), 6371 * (Real.pi / 180) * (3 / 25) / 5) : Option Job × ℝ) := by
    rw [outlierStep_eval [augment siteA1, augment siteA2, augment siteA3, augment siteA4, augment siteA5, augment siteA6] ((some (augment siteA1), 6371 * (Real.pi / 180) * (3 / 25) / 5) : Option Job × ℝ) (augment siteA2) (6371 * (Real.pi / 180) * (3 / 25) / 5) havg2]
    rw [if_neg (lt_irrefl _)]
  have s3 : outlierStep [augment siteA1, augment siteA2, augment siteA3, augment siteA4, augment siteA5, augment siteA6] ((some (augment siteA1), 6371 * (Real.pi / 180) * (3 / 25) / 5) : Option Job × ℝ) (augment siteA3) = ((some (augment siteA1), 6371 * (Real.pi / 180) * (3 / 25) / 5) : Option Job × ℝ) := by
    rw [outlierStep_eval [augment siteA1, augment siteA2, augment siteA3, augment siteA4, augment siteA5, augment siteA6] ((some (augment siteA1), 6371 * (Real.pi / 180) * (3 / 25) / 5) : Option Job × ℝ) (augment siteA3) (6371 * (Real.pi / 180) * (3 / 25) / 5) havg3]
    rw [if_neg (lt_irrefl _)]
  have s4 : outlierStep [augment siteA1, augment siteA2, augment siteA3, augment siteA4, augment siteA5, augment siteA6] ((some (augment siteA1), 6371 * (Real.pi / 180) * (3 / 25) / 5) : Option Job × ℝ) (augment siteA4) = ((some (augment siteA1), 6371 * (Real.pi / 180) * (3 / 25) / 5) : Option Job × ℝ) := by
    rw [outlierStep_eval [augment siteA1, augment siteA2, augment siteA3, augment siteA4, augment siteA5, augment siteA6] ((some (augment siteA1), 6371 * (Real.pi / 180) * (3 / 25) / 5) : Option Job × ℝ) (augment siteA4) (6371 * (Real.pi / 180) * (3 / 25) / 5) havg4]
    rw [if_neg (lt_irrefl _)]
  have s5 : outlierStep [augment siteA1, augment siteA2, augment siteA3, augment siteA4, augment siteA5, augment siteA6] ((some (augment siteA1), 6371 * (Real.pi / 180) * (3 / 25) / 5) : Option Job × ℝ) (augment siteA5) = ((some (augment siteA1), 6371 * (Real.pi / 180) * (3 / 25) / 5) : Option Job × ℝ) := by
    rw [outlierStep_eval [augment siteA1, augment siteA2, augment siteA3, augment siteA4, augment siteA5, augment siteA6] ((some (augment siteA1), 6371 * (Real.pi / 180) * (3 / 25) / 5) : Option Job × ℝ) (augment siteA5) (6371 * (Real.pi / 180) * (3 / 25) / 5) havg5]
    rw [if_neg (lt_irrefl _)]
  have s6 : outlierStep [augment siteA1, augment siteA2, augment siteA3, augment siteA4, augment siteA5, augment siteA6] ((some (augment siteA1), 6371 * (Real.pi / 180) * (3 / 25) / 5) : Option Job × ℝ) (augment siteA6) =
      (some (augment siteA6), 6371 * (Real.pi / 180) * (3 / 25)) := by
    rw [outlierStep_eval [augment siteA1, augment siteA2, augment siteA3, augment siteA4, augment siteA5, augment siteA6] ((some (augment siteA1), 6371 * (Real.pi / 180) * (3 / 25) / 5) : Option Job × ℝ) (augment siteA6) (6371 * (Real.pi / 180) * (3 / 25)) havg6]
    rw [if_pos (by
      have hpos := Real.pi_pos
      show 6371 * (Real.pi / 180) * (3 / 25) > 6371 * (Real.pi / 180) * (3 / 25) / 5
      nlinarith)]
  refine ⟨6371 * (Real.pi / 180) * (3 / 25), ?_, distC_gt_10⟩
  unfold findOutlier
  simp only [List.foldl_cons, List.foldl_nil]
  rw [s1, s2, s3, s4, s5, s6]

/-- Full planner run on `eightJobs`: the greedy walk packs
`[A1..A6], [B7], [B8]`, then the rebalancing pass moves the outlier `A6` onto
the front of the second day. -/
lemma distribute_eight : distributeJobsAcrossDays eightJobs 7 =
    [[augment siteA1, augment siteA2, augment siteA3, augment siteA4,
      augment siteA5],
     [augment siteA6, augment taskB7], [augment taskB8]] := by
  obtain ⟨x, hout, hx⟩ := findOutlier_cluster
  unfold distributeJobsAcrossDays
  rw [if_neg (by decide : ¬ eightJobs.length ≤ 7), packed_eight]
  rw [rebalance_eq_move 7
    [augment siteA1, augment siteA2, augment siteA3, augment siteA4,
      augment siteA5, augment siteA6]
    [augment taskB7] [[augment taskB8]]
    ⟨by norm_num, by norm_num⟩ hout hx]
  rw [(show ([augment siteA1, augment siteA2, augment siteA3, augment siteA4,
      augment siteA5, augment siteA6] : List Job).filter
        (fun k => k.id != (augment siteA6).id) =
      [augment siteA1, augment siteA2, augment siteA3, augment siteA4,
        augment siteA5] from rfl)]
  rw [rebalance_eq_skip 7 [augment siteA6, augment taskB7] [augment taskB8] []
    (by intro h; have h1 := h.1; norm_num at h1)]
  rw [(show rebalance 7 [[augment taskB8]] = [[augment taskB8]] from by
    simp [rebalance])]

/-- C2 counterexample: on `eightJobs` the rebalancing pass produces the bucket
`[A6, B7]` with total effective duration 540 > 480 minutes and two jobs — the
duration cap does not survive rebalancing. -/
theorem c2_counterexample :
    (distributeJobsAcrossDays eightJobs 7).get? 1 =
      some [augment siteA6, augment taskB7] ∧
    480 < durSum [augment siteA6, augment taskB7] ∧
    [augment siteA6, augment taskB7].length ≠ 1 := by
  refine ⟨?_, by decide, by decide⟩
  rw [distribute_eight]
  rfl

theorem c2_witness :
    [augment taskB8] ∈ distributeJobsAcrossDays eightJobs 7 ∧
    [augment taskB8] ∈ packedDays eightJobs 7 ∧
    [augment taskB8].length ≤ 7 ∧
    (durSum [augment taskB8] ≤ 480 ∨
      ∃ j, [augment taskB8] = [j] ∧ 480 < effDur j) := by
  have hmem1 : [augment taskB8] ∈ distributeJobsAcrossDays eightJobs 7 := by
    rw [distribute_eight]
    exact List.mem_cons_of_mem _ (List.mem_cons_of_mem _ (List.mem_cons_self _ _))
  have hmem2 : [augment taskB8] ∈ packedDays eightJobs 7 := by
    rw [packed_eight]
    exact List.mem_cons_of_mem _ (List.mem_cons_of_mem _ (List.mem_cons_self _ _))
  exact ⟨hmem1, hmem2, (c2_bucket_caps eightJobs [augment taskB8]).1 hmem1,
    ((c2_bucket_caps eightJobs [augment taskB8]).2 hmem2).2⟩

/-! ## C8 — frame of the core -/

/-- C8 (corrected): the engine returns each job with `id`, `title`, `type`,
`location`, `routeOrder`, `lat`, `lng`, `totalDuration` unchanged, and
`duration` unchanged unless it was declared zero (then it becomes one hour,
see `c8_counterexample`); and every job in a planner bucket agrees with its
input job on all fields except the planner-added `lat`, `lng`,
`totalDuration` (the spread at part_000:541-546).  So beyond the claimed
`startDate` / `endDate` / `travelTimeToNext` / `routeOrder` writes, the core
also touches `duration` (when zero) and adds the three augmentation fields. -/
theorem c8_frame (todayMin : ℕ) (buffers : ℕ → ℕ) (jobs : List Job)
    (m : DistanceMatrix) (dests : List Destination) (rd : Option ℕ)
    (k : ℕ) (jin jout : Job)
    (hin : jobs.get? k = some jin)
    (hout : (scheduleOptimizedJobs todayMin buffers jobs m dests rd).get? k =
      some jout) :
    (jout.id = jin.id ∧ jout.title = jin.title ∧ jout.type = jin.type ∧
      jout.location = jin.location ∧ jout.routeOrder = jin.routeOrder ∧
      jout.lat = jin.lat ∧ jout.lng = jin.lng ∧
      jout.totalDuration = jin.totalDuration ∧
      (durMin jin ≠ 0 → jout.duration = jin.duration)) ∧
    ∀ (pjobs : List Job) (b : List Job) (j' : Job),
      (pjobs.map Job.id).Nodup → b ∈ distributeJobsAcrossDays pjobs 7 → j' ∈ b →
      ∃ j ∈ pjobs, j'.id = j.id ∧ j'.title = j.title ∧ j'.type = j.type ∧
        j'.location = j.location ∧ j'.duration = j.duration ∧
        j'.startDate = j.startDate ∧ j'.endDate = j.endDate ∧
        j'.travelTimeToNext = j.travelTimeToNext ∧
        j'.routeOrder = j.routeOrder := by
  constructor
  · unfold scheduleOptimizedJobs at hout
    obtain ⟨s, _, _, _, hid, htitle, htype, hloc, hro, hlat, hlng, htd, hdur⟩ :=
      scheduleLoop_spec m dests buffers jobs _ _ k jin jout hin hout
    refine ⟨hid, htitle, htype, hloc, hro, hlat, hlng, htd, ?_⟩
    intro hnz
    rw [hdur]
    unfold fixDuration
    rw [if_neg hnz]
  · intro pjobs b j' hids hb hj'
    unfold distributeJobsAcrossDays at hb
    by_cases hsmall : pjobs.length ≤ 7
    · rw [if_pos hsmall] at hb
      have hbp : b = pjobs := by simpa using hb
      subst hbp
      exact ⟨j', hj', rfl, rfl, rfl, rfl, rfl, rfl, rfl, rfl, rfl⟩
    · rw [if_neg hsmall] at hb
      have hjoin : j' ∈ (rebalance 7 (packedDays pjobs 7)).join :=
        List.mem_join.mpr ⟨b, hb, hj'⟩
      have hpackedids : (((packedDays pjobs 7).join).map Job.id).Nodup := by
        have haug : ((pjobs.map augment).map Job.id) = pjobs.map Job.id := by
          rw [List.map_map]
          rfl
        have hperm : (((packedDays pjobs 7).join).map Job.id).Perm
            (pjobs.map Job.id) := by
          rw [packedDays_join]
          exact ((sortJobs_perm (pjobs.map augment)).map Job.id).trans
            (by rw [haug])
        exact hperm.symm.nodup hids
      have hmem2 : j' ∈ (packedDays pjobs 7).join :=
        (rebalance_join_perm 7 (packedDays pjobs 7) hpackedids).mem_iff.mp hjoin
      rw [packedDays_join] at hmem2
      have hmem3 : j' ∈ pjobs.map augment :=
        (sortJobs_perm (pjobs.map augment)).mem_iff.mp hmem2
      obtain ⟨j, hj, rfl⟩ := List.mem_map.mp hmem3
      exact ⟨j, hj, rfl, rfl, rfl, rfl, rfl, rfl, rfl, rfl, rfl⟩

theorem c8_witness :
    ([jobSecond].get? 0 = some jobSecond ∧
      (scheduleOptimizedJobs 0 (fun _ => 15) [jobSecond] emptyMatrix []
        (some 0)).get? 0 =
        some { jobSecond with startDate := some 450, endDate := some 510 } ∧
      (eightJobs.map Job.id).Nodup ∧
      [augment taskB8] ∈ distributeJobsAcrossDays eightJobs 7 ∧
      augment taskB8 ∈ [augment taskB8]) ∧
    (({ jobSecond with startDate := some 450, endDate := some 510 } : Job).id =
        jobSecond.id ∧
      ({ jobSecond with startDate := some 450, endDate := some 510 } :
        Job).duration = jobSecond.duration) ∧
    (∃ j ∈ eightJobs, (augment taskB8).id = j.id ∧
      (augment taskB8).title = j.title ∧ (augment taskB8).type = j.type ∧
      (augment taskB8).location = j.location ∧
      (augment taskB8).duration = j.duration ∧
      (augment taskB8).startDate = j.startDate ∧
      (augment taskB8).endDate = j.endDate ∧
      (augment taskB8).travelTimeToNext = j.travelTimeToNext ∧
      (augment taskB8).routeOrder = j.routeOrder) := by
  have hmem1 : [augment taskB8] ∈ distributeJobsAcrossDays eightJobs 7 := by
    rw [distribute_eight]
    exact List.mem_cons_of_mem _ (List.mem_cons_of_mem _ (List.mem_cons_self _ _))
  have h := c8_frame 0 (fun _ => 15) [jobSecond] emptyMatrix [] (some 0) 0
    jobSecond { jobSecond with startDate := some 450, endDate := some 510 }
    rfl (by decide)
  exact ⟨⟨rfl, by decide, by decide, hmem1, List.mem_cons_self _ _⟩,
    ⟨h.1.1, h.1.2.2.2.2.2.2.2.2 (by decide)⟩,
    h.2 eightJobs [augment taskB8] (augment taskB8) (by decide) hmem1
      (List.mem_cons_self _ _)⟩

/-! ## C9 — geo distance algebra -/

/-- C9: `calculateDistance` (the haversine with Earth radius 6371 km) vanishes
on the diagonal, is symmetric in its two points, and is non-negative
everywhere. -/
theorem c9_distance_algebra :
    (∀ lat lng : ℝ, calculateDistance lat lng lat lng = 0) ∧
    (∀ lat1 lng1 lat2 lng2 : ℝ,
      calculateDistance lat1 lng1 lat2 lng2 = calculateDistance lat2 lng2 lat1 lng1) ∧
    (∀ lat1 lng1 lat2 lng2 : ℝ, 0 ≤ calculateDistance lat1 lng1 lat2 lng2) :=
  ⟨calculateDistance_self, calculateDistance_symm, calculateDistance_nonneg⟩

/-! ## C6 — small job lists return a single bucket -/

/-- C6: whenever `jobs.length ≤ maxJobsPerDay`, the planner returns exactly
`[jobs]` — one bucket, all jobs, input order, with no sorting, packing, or
rebalancing (part_000:536-538). -/
theorem c6_small_list_single_bucket (jobs : List Job) (maxJobsPerDay : ℕ)
    (h : jobs.length ≤ maxJobsPerDay) :
    distributeJobsAcrossDays jobs maxJobsPerDay = [jobs] := by
  unfold distributeJobsAcrossDays
  rw [if_pos h]

theorem c6_witness :
    [jobSixtyOne, jobSecond].length ≤ 7 ∧
    distributeJobsAcrossDays [jobSixtyOne, jobSecond] 7 = [[jobSixtyOne, jobSecond]] :=
  ⟨by decide, c6_small_list_single_bucket [jobSixtyOne, jobSecond] 7 (by decide)⟩

/-! ## C7 — hard 20-job cap on the multi-day endpoint -/

/-- C7: a request with more than 20 jobs is rejected with the count-exceeds-20
message (HTTP 400, part_000:654-658), whatever the API key state or
`startFromDate` — i.e. before the date check, before the planner at
part_000:677, and before any external call could be reached.  The error
response carries no job data, so the input jobs are untouched. -/
theorem c7_multi_day_cap (hasApiKey : Bool) (js : List Job)
    (startFromDate : Option String) (h : 20 < js.length) :
    optimizeMultiDayHandler hasApiKey (some js) startFromDate =
      Outcome.badRequest "Maximum 20 jobs supported for multi-day optimization" := by
  simp only [optimizeMultiDayHandler]
  rw [if_neg (by omega : ¬ js.length = 0), if_pos (by omega : js.length > 20)]

theorem c7_witness :
    20 < twentyOneJobs.length ∧
    optimizeMultiDayHandler true (some twentyOneJobs) (some "2024-03-01") =
      Outcome.badRequest "Maximum 20 jobs supported for multi-day optimization" :=
  ⟨by decide, c7_multi_day_cap true twentyOneJobs (some "2024-03-01") (by decide)⟩

/-! ## C10 — zero coordinates are treated as missing -/

/-- C10: the coordinate presence guard is a truthiness test
(part_000:387-390, part_000:694-697, server.js:247-250), so a job with
`latitude` or `longitude` exactly `0` is rejected with the same per-job
"missing location coordinates" error (naming the job's title) as a job with an
absent coordinate — in the single-day handler and in the multi-day per-day
extraction alike. -/
theorem c10_zero_coordinate_rejected (job : Job)
    (h : job.location.latitude = some 0 ∨ job.location.longitude = some 0) :
    destinationOf job =
      Except.error ("Job \"" ++ job.title ++ "\" is missing location coordinates") ∧
    destinationOf job =
      destinationOf { job with location := { job.location with latitude := none } } ∧
    optimizeRouteHandler true (some [job]) none =
      Outcome.serverError
        ("Job \"" ++ job.title ++ "\" is missing location coordinates") ∧
    multiDayDestinationsFor [job] =
      Except.error ("Job \"" ++ job.title ++ "\" is missing location coordinates") := by
  have hmain : destinationOf job =
      Except.error ("Job \"" ++ job.title ++ "\" is missing location coordinates") := by
    rcases h with h | h
    · rcases hlng : job.location.longitude with _ | ln
      · simp [destinationOf, h, hlng]
      · simp [destinationOf, h, hlng]
    · rcases hlat : job.location.latitude with _ | la
      · simp [destinationOf, h, hlat]
      · simp [destinationOf, h, hlat]
  refine ⟨hmain, ?_, ?_, ?_⟩
  · rw [hmain]
    simp [destinationOf]
  · simp [optimizeRouteHandler, extractDestinations, List.mapM, List.mapM.loop, hmain]
  · simp [multiDayDestinationsFor, List.mapM, List.mapM.loop, hmain]

theorem c10_witness :
    (jobEquator.location.latitude = some 0 ∨
      jobEquator.location.longitude = some 0) ∧
    destinationOf jobEquator =
      Except.error ("Job \"" ++ jobEquator.title ++ "\" is missing location coordinates") :=
  ⟨Or.inl rfl, (c10_zero_coordinate_rejected jobEquator (Or.inl rfl)).1⟩

/-! ## C5 — base date anchoring of the time layout engine -/

/-- C5 (corrected): when the caller does supply a routing date, the engine
anchors to it — the output is independent of the current date, and the first
job starts at 07:30 on the supplied date.  (The original claim that the base
date is "always threaded in explicitly, never the current date" is refuted by
`c5_counterexample`: part_000:277-288 falls back to `new Date()` when
`routingDate` is absent and the first job has no `startDate`.) -/
theorem c5_base_date_when_supplied (t1 t2 : ℕ) (buffers : ℕ → ℕ)
    (m : DistanceMatrix) (dests : List Destination) (jobs : List Job) (d : ℕ)
    (h : jobs ≠ []) :
    scheduleOptimizedJobs t1 buffers jobs m dests (some d) =
      scheduleOptimizedJobs t2 buffers jobs m dests (some d) ∧
    ((scheduleOptimizedJobs t1 buffers jobs m dests (some d)).head?).bind
      Job.startDate = some (1440 * d + 450) := by
  constructor
  · rfl
  · match jobs, h with
    | job :: rest, _ =>
      obtain ⟨jh, tl, heq, hs, _, _⟩ :=
        scheduleLoop_cons_head m dests buffers 0 (1440 * d + 450) job rest
      unfold scheduleOptimizedJobs
      rw [heq]
      simp only [List.head?_cons, Option.some_bind]
      rw [hs]
      have : roundToQuarterHour (1440 * d + 450) = 1440 * d + 450 := by
        rw [roundToQuarterHour_eq]; omega
      rw [this]

theorem c5_witness :
    ([jobNoStart] ≠ ([] : List Job)) ∧
    scheduleOptimizedJobs 0 (fun _ => 15) [jobNoStart] emptyMatrix [] (some 3) =
      scheduleOptimizedJobs 99999 (fun _ => 15) [jobNoStart] emptyMatrix [] (some 3) ∧
    ((scheduleOptimizedJobs 0 (fun _ => 15) [jobNoStart] emptyMatrix []
      (some 3)).head?).bind Job.startDate = some (1440 * 3 + 450) :=
  ⟨by decide,
    (c5_base_date_when_supplied 0 99999 (fun _ => 15) emptyMatrix [] [jobNoStart] 3
      (by decide)).1,
    (c5_base_date_when_supplied 0 99999 (fun _ => 15) emptyMatrix [] [jobNoStart] 3
      (by decide)).2⟩

/-- C5 counterexample: with no `routingDate` and a first job without
`startDate`, the engine anchors to the current date (`new Date()`, modelled by
`todayMin`): the very same request scheduled "today = day 0" vs "today = day 1"
yields first starts 07:30 of day 0 vs 07:30 of day 1. -/
theorem c5_counterexample :
    ((scheduleOptimizedJobs 0 (fun _ => 15) [jobNoStart] emptyMatrix []
      none).head?).bind Job.startDate = some 450 ∧
    ((scheduleOptimizedJobs 1440 (fun _ => 15) [jobNoStart] emptyMatrix []
      none).head?).bind Job.startDate = some 1890 := by
  decide

/-- C3 counterexample: travel defaults to 15, the buffer value 30 is attainable
(`Math.floor(Math.random()*16) + 15 = 30`), and a 61-minute first job ends at
08:31, so the next start 09:30 is 59 minutes later — more than
travel + 30 = 45.  The claimed upper bound omits the quarter-hour ceiling. -/
theorem c3_counterexample :
    ((scheduleOptimizedJobs 0 (fun _ => 30) [jobSixtyOne, jobSecond] emptyMatrix []
      (some 0)).get? 0).bind Job.endDate = some 511 ∧
    ((scheduleOptimizedJobs 0 (fun _ => 30) [jobSixtyOne, jobSecond] emptyMatrix []
      (some 0)).get? 1).bind Job.startDate = some 570 ∧
    511 + (travelEstimate emptyMatrix [] jobSixtyOne.id jobSecond.id).1 + 30 < 570 := by
  decide

/-- C8 counterexample: the engine rewrites a zero `duration` to one hour in
place (part_000:301-304), so `duration` is not among the untouched fields. -/
theorem c8_counterexample :
    ((scheduleOptimizedJobs 0 (fun _ => 15) [jobZeroDur] emptyMatrix []
      (some 0)).get? 0).map Job.duration = some ⟨0, 1, 0⟩ ∧
    jobZeroDur.duration = ⟨0, 0, 0⟩ := by
  decide

end TravApi
